import Mathlib

/-!
# Verification of the contribution-margin-chart core

A shallow embedding of the CVP (Cost-Volume-Profit) calculation engine
(`packages/core/src/calculator`, class CVPCalculator) and the treemap layout
engine (`packages/core/src/layout/TreemapLayoutEngine.ts`), together with
theorems settling the specification claims about them.

JavaScript numbers are modelled as exact rationals; the engine's arithmetic
(sums, differences, divisions, comparisons against the 1e-10 epsilon) is
translated literally.  Fallible or undefined values (`null`) are modelled with
`Option`.  Every definition follows the corresponding source function; field
and definition names follow the source (the source field name `variable` is a
Lean keyword and is written `«variable»`).
-/

set_option maxHeartbeats 1600000

/-- `VALIDATION_THRESHOLDS.PRECISION_EPSILON` from `constants/index.ts`. -/
def PRECISION_EPSILON : ℚ := 1e-10

/-- Optional breakdown of fixed costs (only the `labor` entry is consumed by
the calculator, via `calculateLaborDistributionRatio`). -/
structure FixedCostsBreakdown where
  labor : Option ℚ := none
  rent : Option ℚ := none
  depreciation : Option ℚ := none
  other : Option ℚ := none
deriving DecidableEq

/-- `CVPInput` from `types.ts`: the three raw figures (plus the optional
fixed-costs breakdown used by the labor-distribution metric). -/
structure CVPInput where
  sales : ℚ
  variableCosts : ℚ
  fixedCosts : ℚ
  fixedCostsBreakdown : Option FixedCostsBreakdown := none
deriving DecidableEq

/-- `CVPCalculatedValues` from `types.ts`. -/
structure CVPCalculatedValues where
  contributionMargin : ℚ
  contributionMarginRatio : ℚ
  operatingProfit : ℚ
  operatingProfitRatio : ℚ
  breakEvenPoint : Option ℚ
  breakEvenRatio : Option ℚ
  safetyMargin : Option ℚ
  safetyMarginRatio : Option ℚ
  variableCostRatio : ℚ
  fixedCostRatio : ℚ
  laborDistributionRatio : Option ℚ
deriving DecidableEq

namespace CVPCalculator

/-- `CVPCalculator.calculateContributionMargin`. -/
def calculateContributionMargin (sales variableCosts : ℚ) : ℚ :=
  sales - variableCosts

/-- `CVPCalculator.calculateOperatingProfit`. -/
def calculateOperatingProfit (contributionMargin fixedCosts : ℚ) : ℚ :=
  contributionMargin - fixedCosts

/-- `CVPCalculator.calculateBreakEvenPoint`. -/
def calculateBreakEvenPoint (fixedCosts contributionMarginRatio : ℚ) : Option ℚ :=
  if contributionMarginRatio ≤ PRECISION_EPSILON then
    none
  else if fixedCosts ≤ 0 then
    some 0
  else
    some (fixedCosts / contributionMarginRatio)

/-- `CVPCalculator.calculateSafetyMargin`. -/
def calculateSafetyMargin (sales : ℚ) (breakEvenPoint : Option ℚ) : Option ℚ :=
  match breakEvenPoint with
  | none => none
  | some bep => some (sales - bep)

/-- `CVPCalculator.safeRatio`: division with an epsilon guard against a
(near-)zero denominator. -/
def safeRatio (numerator denominator : ℚ) : ℚ :=
  if |denominator| < PRECISION_EPSILON then 0 else numerator / denominator

/-- `CVPCalculator.calculateRatio`: like `safeRatio` but propagating `null`. -/
def calculateRatio (numerator : Option ℚ) (denominator : ℚ) : Option ℚ :=
  match numerator with
  | none => none
  | some n => some (if |denominator| < PRECISION_EPSILON then 0 else n / denominator)

/-- `CVPCalculator.calculateLaborDistributionRatio`. -/
def calculateLaborDistributionRatio (input : CVPInput) (contributionMargin : ℚ) :
    Option ℚ :=
  match input.fixedCostsBreakdown with
  | none => none
  | some breakdown =>
    match breakdown.labor with
    | none => none
    | some laborCost =>
      if contributionMargin ≤ PRECISION_EPSILON then none
      else some (laborCost / contributionMargin)

/-- `CVPCalculator.calculate`: all derived CVP metrics. -/
def calculate (input : CVPInput) : CVPCalculatedValues :=
  let sales := input.sales
  let variableCosts := input.variableCosts
  let fixedCosts := input.fixedCosts
  let contributionMargin := calculateContributionMargin sales variableCosts
  let contributionMarginRatio := safeRatio contributionMargin sales
  let operatingProfit := calculateOperatingProfit contributionMargin fixedCosts
  let operatingProfitRatio := safeRatio operatingProfit sales
  let breakEvenPoint := calculateBreakEvenPoint fixedCosts contributionMarginRatio
  let breakEvenRatio :=
    if breakEvenPoint.isSome then calculateRatio breakEvenPoint sales else none
  let safetyMargin := calculateSafetyMargin sales breakEvenPoint
  let safetyMarginRatio :=
    if safetyMargin.isSome then calculateRatio safetyMargin sales else none
  let variableCostRatio := safeRatio variableCosts sales
  let fixedCostRatio := safeRatio fixedCosts sales
  let laborDistributionRatio := calculateLaborDistributionRatio input contributionMargin
  { contributionMargin := contributionMargin
    contributionMarginRatio := contributionMarginRatio
    operatingProfit := operatingProfit
    operatingProfitRatio := operatingProfitRatio
    breakEvenPoint := breakEvenPoint
    breakEvenRatio := breakEvenRatio
    safetyMargin := safetyMargin
    safetyMarginRatio := safetyMarginRatio
    variableCostRatio := variableCostRatio
    fixedCostRatio := fixedCostRatio
    laborDistributionRatio := laborDistributionRatio }

end CVPCalculator

/-! ## Display options, colors and labels (`types.ts`, `constants/index.ts`) -/

/-- `LossDisplayMode` from `types.ts` (`'negative-bar' | 'downward' | 'separate'`). -/
inductive LossDisplayMode where
  | negativeBar
  | downward
  | separate
deriving DecidableEq

/-- `UnitMode` from `types.ts`. -/
inductive UnitMode where
  | raw
  | thousand
  | million
  | billion
deriving DecidableEq

/-- `ColorPalette` from `types.ts`: every field optional. -/
structure ColorPalette where
  sales : Option String := none
  «variable» : Option String := none
  contribution : Option String := none
  fixed : Option String := none
  profit : Option String := none
  loss : Option String := none
deriving DecidableEq

/-- `Required<ColorPalette>`: the fully resolved palette. -/
structure RequiredColorPalette where
  sales : String
  «variable» : String
  contribution : String
  fixed : String
  profit : String
  loss : String
deriving DecidableEq

/-- `ColorScheme` from `types.ts`. -/
structure ColorScheme where
  name : String
  colors : RequiredColorPalette
deriving DecidableEq

/-- The `colorScheme` option: a predefined scheme name or a custom scheme
(`ColorSchemeName | ColorScheme`). -/
inductive ColorSchemeChoice where
  | name (s : String)
  | custom (cs : ColorScheme)
deriving DecidableEq

/-- `DEFAULT_COLORS` from `constants/index.ts`. -/
def DEFAULT_COLORS : RequiredColorPalette :=
  { sales := "#4A90E2", «variable» := "#F5A623", contribution := "#7ED321",
    fixed := "#9B9B9B", profit := "#417505", loss := "#D0021B" }

/-- `PASTEL_COLORS` from `constants/index.ts`. -/
def PASTEL_COLORS : RequiredColorPalette :=
  { sales := "#A8D5E5", «variable» := "#FFD5A5", contribution := "#C5E8B7",
    fixed := "#D5D5D5", profit := "#B5D99A", loss := "#F5B5B5" }

/-- `VIVID_COLORS` from `constants/index.ts`. -/
def VIVID_COLORS : RequiredColorPalette :=
  { sales := "#2196F3", «variable» := "#FF9800", contribution := "#4CAF50",
    fixed := "#607D8B", profit := "#2E7D32", loss := "#F44336" }

/-- `MONOCHROME_COLORS` from `constants/index.ts`. -/
def MONOCHROME_COLORS : RequiredColorPalette :=
  { sales := "#333333", «variable» := "#666666", contribution := "#444444",
    fixed := "#888888", profit := "#222222", loss := "#AA0000" }

/-- `COLORBLIND_COLORS` from `constants/index.ts`. -/
def COLORBLIND_COLORS : RequiredColorPalette :=
  { sales := "#0077BB", «variable» := "#EE7733", contribution := "#009988",
    fixed := "#BBBBBB", profit := "#33BBEE", loss := "#CC3311" }

/-- `COLOR_SCHEMES` from `constants/index.ts`, as a lookup by scheme name
(`undefined` for unknown keys is `none`). -/
def COLOR_SCHEMES (key : String) : Option ColorScheme :=
  if key = "default" then some { name := "default", colors := DEFAULT_COLORS }
  else if key = "pastel" then some { name := "pastel", colors := PASTEL_COLORS }
  else if key = "vivid" then some { name := "vivid", colors := VIVID_COLORS }
  else if key = "monochrome" then some { name := "monochrome", colors := MONOCHROME_COLORS }
  else if key = "colorblind" then some { name := "colorblind", colors := COLORBLIND_COLORS }
  else none

/-- The label entries of `LABELS_JA` / `LABELS_EN` consumed by the layout
engine (`labels.sales` … `labels.loss`). -/
structure Labels where
  sales : String
  «variable» : String
  contribution : String
  fixed : String
  profit : String
  loss : String
deriving DecidableEq

/-- `LABELS_JA` from `constants/index.ts` (layout-relevant entries). -/
def LABELS_JA : Labels :=
  { sales := "売上高", «variable» := "変動費", contribution := "限界利益",
    fixed := "固定費", profit := "経営利益", loss := "損失" }

/-- `LABELS_EN` from `constants/index.ts` (layout-relevant entries). -/
def LABELS_EN : Labels :=
  { sales := "Sales", «variable» := "Variable Costs", contribution := "Contribution Margin",
    fixed := "Fixed Costs", profit := "Operating Profit", loss := "Loss" }

/-- `getLabels` from `constants/index.ts`. -/
def getLabels (locale : String) : Labels :=
  if locale.startsWith "ja" then LABELS_JA else LABELS_EN

/-- BEP label position (`'top' | 'bottom' | 'inline'`). -/
inductive BEPLabelPosition where
  | top
  | bottom
  | inline
deriving DecidableEq

/-- BEP label content (`'value' | 'ratio' | 'both'`). -/
inductive BEPLabelContent where
  | value
  | ratio
  | both
deriving DecidableEq

/-- `BEPDisplayOptions.lineStyle` from `types.ts`. -/
structure BEPLineStyle where
  strokeWidth : Option ℚ := none
  dashArray : Option String := none
  color : Option String := none
deriving DecidableEq

/-- `BEPDisplayOptions` from `types.ts`. -/
structure BEPDisplayOptions where
  showLine : Option Bool := none
  showLabel : Option Bool := none
  showZone : Option Bool := none
  lineStyle : Option BEPLineStyle := none
  labelPosition : Option BEPLabelPosition := none
  labelContent : Option BEPLabelContent := none
deriving DecidableEq

/-- `DisplayOptions` from `types.ts`, restricted to the fields the core
calculator/layout engine consumes (value-display, orientation, bar sizing and
interaction fields never flow into the engine's output and are omitted).
`none` models an absent property. -/
structure DisplayOptions where
  unitMode : Option UnitMode := none
  currencySymbol : Option String := none
  locale : Option String := none
  decimalPlaces : Option ℕ := none
  colorScheme : Option ColorSchemeChoice := none
  customColors : Option ColorPalette := none
  lossDisplayMode : Option LossDisplayMode := none
  showBEPLine : Option Bool := none
  bepOptions : Option BEPDisplayOptions := none
deriving DecidableEq

/-- `DEFAULT_DISPLAY_OPTIONS.bepOptions` from `constants/index.ts`. -/
def DEFAULT_BEP_OPTIONS : BEPDisplayOptions :=
  { showLine := some true, showLabel := some true, showZone := some false,
    lineStyle := some { strokeWidth := some 2, dashArray := some "5,5", color := some "#666666" },
    labelPosition := some BEPLabelPosition.top,
    labelContent := some BEPLabelContent.value }

/-- `RequiredColorPalette` viewed as a (fully populated) `ColorPalette`, as
`DEFAULT_COLORS` appears in `DEFAULT_DISPLAY_OPTIONS.customColors`. -/
def RequiredColorPalette.toColorPalette (c : RequiredColorPalette) : ColorPalette :=
  { sales := some c.sales, «variable» := some c.«variable»,
    contribution := some c.contribution, fixed := some c.fixed,
    profit := some c.profit, loss := some c.loss }

/-- `DEFAULT_DISPLAY_OPTIONS` from `constants/index.ts` (core-relevant fields;
every field is present). -/
def DEFAULT_DISPLAY_OPTIONS : DisplayOptions :=
  { unitMode := some UnitMode.thousand
    currencySymbol := some "¥"
    locale := some "ja-JP"
    decimalPlaces := some 0
    colorScheme := some (ColorSchemeChoice.name "default")
    customColors := some DEFAULT_COLORS.toColorPalette
    lossDisplayMode := some LossDisplayMode.negativeBar
    showBEPLine := some true
    bepOptions := some DEFAULT_BEP_OPTIONS }

/-- First-present choice, modelling the object-spread override
`{...defaults, ...options}` field by field. -/
def optOr {α : Type} (a b : Option α) : Option α :=
  match a with
  | some x => some x
  | none => b

/-! ## Value formatter (`formatter/ValueFormatter.ts`) -/

/-- `UNIT_DIVISORS` from `constants/index.ts`. -/
def UNIT_DIVISORS : UnitMode → ℚ
  | UnitMode.raw => 1
  | UnitMode.thousand => 1000
  | UnitMode.million => 1000000
  | UnitMode.billion => 1000000000

/-- `UNIT_SUFFIXES` from `constants/index.ts` (`ja` / `en` rows). -/
def UNIT_SUFFIXES (localeKind : String) (mode : UnitMode) : String :=
  if localeKind = "ja" then
    match mode with
    | UnitMode.raw => ""
    | UnitMode.thousand => "千円"
    | UnitMode.million => "百万円"
    | UnitMode.billion => "億円"
  else
    match mode with
    | UnitMode.raw => ""
    | UnitMode.thousand => "K"
    | UnitMode.million => "M"
    | UnitMode.billion => "B"

/-- The resolved `Required<FormatOptions>` held by a `ValueFormatter`. -/
structure ValueFormatter where
  unitMode : UnitMode
  locale : String
  decimalPlaces : ℕ
  currencySymbol : String
  showPositiveSign : Bool
  compact : Bool
deriving DecidableEq

/-- `ValueFormatter.fromDisplayOptions`: the constructor applied to the
display options' formatting fields, with the constructor's
`?? DEFAULT_DISPLAY_OPTIONS...` fallbacks. -/
def ValueFormatter.fromDisplayOptions (displayOptions : DisplayOptions) : ValueFormatter :=
  { unitMode := displayOptions.unitMode.getD UnitMode.thousand
    locale := displayOptions.locale.getD "ja-JP"
    decimalPlaces := displayOptions.decimalPlaces.getD 0
    currencySymbol := displayOptions.currencySymbol.getD "¥"
    showPositiveSign := false
    compact := false }

/-- Digit grouping: walking the reversed digit list, a `,` is inserted after
every three digits (models the grouping of `Intl.NumberFormat` for the
`ja-JP` / `en-US` style locales the library targets). -/
def groupRev : List Char → ℕ → List Char
  | [], _ => []
  | c :: rest, n =>
    if n = 3 then ',' :: c :: groupRev rest 1
    else c :: groupRev rest (n + 1)

/-- Insert thousands separators into a digit string. -/
def group3 (s : String) : String :=
  String.mk ((groupRev s.data.reverse 0).reverse)

/-- Left-pad a digit string with zeros to the given width. -/
def padZeros (s : String) (width : ℕ) : String :=
  if s.length ≥ width then s
  else String.mk (List.replicate (width - s.length) '0') ++ s

/-- `ValueFormatter.formatNumber`: `Intl.NumberFormat(locale, {min/max
fraction digits: decimalPlaces}).format(value)`, modelled as half-away-from-
zero rounding to `decimalPlaces` fraction digits with `,`-grouping. -/
def formatNumber (value : ℚ) (decimalPlaces : ℕ) : String :=
  let neg := value < 0
  let scaled := |value| * (10 : ℚ) ^ decimalPlaces
  let n : ℕ := (⌊scaled + 1/2⌋).toNat
  let ipart := n / 10 ^ decimalPlaces
  let fpart := n % 10 ^ decimalPlaces
  let ipartStr := group3 (toString ipart)
  let core :=
    if decimalPlaces = 0 then ipartStr
    else ipartStr ++ "." ++ padZeros (toString fpart) decimalPlaces
  if neg then "-" ++ core else core

/-- `ValueFormatter.format` (no per-call option overrides are passed by the
layout engine). -/
def ValueFormatter.format (vf : ValueFormatter) (value : ℚ) : String :=
  let isNegative := value < 0
  let absValue := |value|
  let divisor := UNIT_DIVISORS vf.unitMode
  let scaledValue := absValue / divisor
  let localeKind := if vf.locale.startsWith "ja" then "ja" else "en"
  let suffix := UNIT_SUFFIXES localeKind vf.unitMode
  let formatted := formatNumber scaledValue vf.decimalPlaces
  let result := ""
  let result := if vf.currencySymbol ≠ "" then result ++ vf.currencySymbol else result
  let result :=
    if isNegative then result ++ "-"
    else if vf.showPositiveSign then result ++ "+" else result
  let result := result ++ formatted
  let result := if suffix ≠ "" then result ++ suffix else result
  result

/-! ## Treemap layout engine (`layout/TreemapLayoutEngine.ts`) -/

/-- `TreemapBlock.type` (`'sales' | 'variable' | 'contribution' | 'fixed' |
'profit' | 'loss'`). -/
inductive BlockType where
  | sales
  | «variable»
  | contribution
  | fixed
  | profit
  | loss
deriving DecidableEq

/-- The `meta` bag attached to loss blocks. -/
structure TreemapBlockMeta where
  isLoss : Option Bool := none
  displayMode : Option String := none
  extendsBelow : Option Bool := none
deriving DecidableEq

/-- `TreemapBlock` from `TreemapLayoutEngine.ts`. -/
structure TreemapBlock where
  id : String
  type : BlockType
  label : String
  value : ℚ
  x : ℚ
  y : ℚ
  width : ℚ
  height : ℚ
  color : String
  borderColor : Option String := none
  textColor : Option String := none
  fontSize : Option ℚ := none
  percentage : ℚ
  isCalculated : Bool
  meta : Option TreemapBlockMeta := none
deriving DecidableEq

/-- A hex digit's value, if `c` is one (`parseInt` radix-16 digit). -/
def hexDigitValue (c : Char) : Option ℕ :=
  if '0' ≤ c ∧ c ≤ '9' then some (c.toNat - '0'.toNat)
  else if 'a' ≤ c ∧ c ≤ 'f' then some (c.toNat - 'a'.toNat + 10)
  else if 'A' ≤ c ∧ c ≤ 'F' then some (c.toNat - 'A'.toNat + 10)
  else none

/-- `parseInt(s, 16)` on a short substring: parse the maximal leading run of
hex digits, `none` (NaN) if there is none. -/
def parseIntHex (s : List Char) : Option ℕ :=
  let ds := s.takeWhile (fun c => (hexDigitValue c).isSome)
  if ds.isEmpty then none
  else some (ds.foldl (fun acc c => acc * 16 + ((hexDigitValue c).getD 0)) 0)

/-- `bgColor.replace('#', '')`: drop the first `#`. -/
def replaceFirstHash : List Char → List Char
  | [] => []
  | c :: rest => if c = '#' then rest else c :: replaceFirstHash rest

/-- `TreemapLayoutEngine.getContrastColor`: relative luminance of the
background decides between dark and light text.  A failed parse (`NaN`
luminance) makes the `> 0.5` comparison false, yielding `#FFFFFF`. -/
def getContrastColor (bgColor : String) : String :=
  let hex := replaceFirstHash bgColor.data
  match parseIntHex (hex.take 2), parseIntHex ((hex.drop 2).take 2),
      parseIntHex ((hex.drop 4).take 2) with
  | some r, some g, some b =>
    let luminance : ℚ := (0.299 * r + 0.587 * g + 0.114 * b) / 255
    if luminance > 0.5 then "#333333" else "#FFFFFF"
  | _, _, _ => "#FFFFFF"

/-- `TreemapLayoutEngine.resolveColors`: default palette, overridden by a
named or custom scheme, overridden field-wise by `customColors`. -/
def resolveColors (options : Option DisplayOptions) : RequiredColorPalette :=
  let colors := DEFAULT_COLORS
  let colors :=
    match options with
    | none => colors
    | some o =>
      match o.colorScheme with
      | none => colors
      | some (ColorSchemeChoice.name s) =>
        match COLOR_SCHEMES s with
        | some scheme => scheme.colors
        | none => colors
      | some (ColorSchemeChoice.custom cs) => cs.colors
  match options with
  | none => colors
  | some o =>
    match o.customColors with
    | none => colors
    | some cc =>
      { sales := cc.sales.getD colors.sales
        «variable» := cc.«variable».getD colors.«variable»
        contribution := cc.contribution.getD colors.contribution
        fixed := cc.fixed.getD colors.fixed
        profit := cc.profit.getD colors.profit
        loss := cc.loss.getD colors.loss }

/-- `TreemapLayoutEngine.mergeOptions`: `{...DEFAULT_DISPLAY_OPTIONS,
...options}`. -/
def mergeOptions (options : DisplayOptions) : DisplayOptions :=
  { unitMode := optOr options.unitMode DEFAULT_DISPLAY_OPTIONS.unitMode
    currencySymbol := optOr options.currencySymbol DEFAULT_DISPLAY_OPTIONS.currencySymbol
    locale := optOr options.locale DEFAULT_DISPLAY_OPTIONS.locale
    decimalPlaces := optOr options.decimalPlaces DEFAULT_DISPLAY_OPTIONS.decimalPlaces
    colorScheme := optOr options.colorScheme DEFAULT_DISPLAY_OPTIONS.colorScheme
    customColors := optOr options.customColors DEFAULT_DISPLAY_OPTIONS.customColors
    lossDisplayMode := optOr options.lossDisplayMode DEFAULT_DISPLAY_OPTIONS.lossDisplayMode
    showBEPLine := optOr options.showBEPLine DEFAULT_DISPLAY_OPTIONS.showBEPLine
    bepOptions := optOr options.bepOptions DEFAULT_DISPLAY_OPTIONS.bepOptions }

/-! ## Annotations and layout output -/

/-- `AnnotationType` from `types.ts`. -/
inductive AnnotationType where
  | ellipse
  | arrow
  | line
  | label
  | zone
deriving DecidableEq

/-- `LineOrientation` from `types.ts`. -/
inductive LineOrientation where
  | horizontal
  | vertical
deriving DecidableEq

/-- `Position` from `types.ts`. -/
structure Position where
  x : ℚ
  y : ℚ
deriving DecidableEq

/-- `AnnotationStyle` from `types.ts` (the fields the layout engine sets). -/
structure AnnotationStyle where
  strokeWidth : Option ℚ := none
  strokeColor : Option String := none
  strokeDasharray : Option String := none
  fontSize : Option ℚ := none
  fontColor : Option String := none
deriving DecidableEq

/-- The `meta` bag of the BEP-line annotation. -/
structure AnnotationMeta where
  labelPosition : Option BEPLabelPosition := none
deriving DecidableEq

/-- `Annotation` from `types.ts` (the fields the layout engine sets). -/
structure Annotation where
  type : AnnotationType
  orientation : Option LineOrientation := none
  position : Position
  text : Option String := none
  style : Option AnnotationStyle := none
  meta : Option AnnotationMeta := none
deriving DecidableEq

/-- `TreemapLayoutOutput.meta` from `TreemapLayoutEngine.ts`. -/
structure LayoutMeta where
  hasLoss : Bool
  hasBEP : Bool
  salesValue : ℚ
  heightExtension : ℚ
deriving DecidableEq

/-- `TreemapLayoutOutput` from `TreemapLayoutEngine.ts`. -/
structure TreemapLayoutOutput where
  blocks : List TreemapBlock
  annotations : List Annotation
  referenceWidth : ℚ
  referenceHeight : ℚ
  meta : LayoutMeta
deriving DecidableEq

/-- The `TreemapLayoutEngine` instance fields (`this.colors`, `this.labels`,
`this.formatter`). -/
structure EngineState where
  colors : RequiredColorPalette
  labels : Labels
  formatter : ValueFormatter
deriving DecidableEq

namespace TreemapLayoutEngine

/-- The `TreemapLayoutEngine` constructor. -/
def new (displayOptions : Option DisplayOptions) : EngineState :=
  { colors := resolveColors displayOptions
    labels := getLabels ((displayOptions.bind (fun o => o.locale)).getD "ja-JP")
    formatter := ValueFormatter.fromDisplayOptions (displayOptions.getD {}) }

/-- The result record of `TreemapLayoutEngine.generateBlocks`. -/
structure BlocksResult where
  blocks : List TreemapBlock
  heightExtension : ℚ
deriving DecidableEq

/-- `TreemapLayoutEngine.generateBlocks`, using the freshly resolved colors
and labels (`this.colors`, `this.labels`). -/
def generateBlocks (colors : RequiredColorPalette) (labels : Labels)
    (input : CVPInput) (calculated : CVPCalculatedValues)
    (options : DisplayOptions) : BlocksResult :=
  let sales := input.sales
  if sales ≤ 0 then { blocks := [], heightExtension := 1 } else
  let totalCosts := input.variableCosts + input.fixedCosts
  let isLoss := calculated.operatingProfit < 0
  let lossDisplayMode := options.lossDisplayMode.getD LossDisplayMode.negativeBar
  let heightExtension : ℚ :=
    if isLoss ∧ lossDisplayMode = LossDisplayMode.negativeBar then
      totalCosts / sales
    else if isLoss ∧ lossDisplayMode = LossDisplayMode.separate then
      let lossAmount := |calculated.operatingProfit|
      let lossRatio := lossAmount / sales
      let separateGap : ℚ := 0.01
      let lossBlockHeight := max lossRatio 0.15
      1.0 + separateGap + lossBlockHeight
    else 1
  let variableRatio := input.variableCosts / sales
  let contributionRatio := calculated.contributionMargin / sales
  let fixedRatio := input.fixedCosts / sales
  let salesWidth : ℚ := 0.35
  let salesBlock : TreemapBlock :=
    { id := "sales", type := BlockType.sales, label := labels.sales, value := sales,
      x := 0, y := 0, width := salesWidth, height := 1,
      color := colors.sales, borderColor := some "#FFFFFF",
      textColor := some (getContrastColor colors.sales),
      percentage := 1, isCalculated := false }
  let rightWidth := 1 - salesWidth
  let rightX := salesWidth
  let variableHeight := variableRatio
  let variableBlock : TreemapBlock :=
    { id := "variable", type := BlockType.variable, label := labels.variable,
      value := input.variableCosts,
      x := rightX, y := 0, width := rightWidth, height := variableHeight,
      color := colors.variable, borderColor := some "#FFFFFF",
      textColor := some (getContrastColor colors.variable),
      percentage := variableRatio, isCalculated := false }
  let contributionY := variableHeight
  let tail : List TreemapBlock :=
    if contributionRatio > 0 then
      let contributionHeight := contributionRatio
      let contributionBlock : TreemapBlock :=
        { id := "contribution", type := BlockType.contribution,
          label := labels.contribution, value := calculated.contributionMargin,
          x := rightX, y := contributionY, width := rightWidth * 0.5,
          height := contributionHeight,
          color := colors.contribution, borderColor := some "#FFFFFF",
          textColor := some (getContrastColor colors.contribution),
          percentage := contributionRatio, isCalculated := true }
      let innerRightX := rightX + rightWidth * 0.5
      let innerRightWidth := rightWidth * 0.5
      let fixedBlock : TreemapBlock :=
        { id := "fixed", type := BlockType.fixed, label := labels.fixed,
          value := input.fixedCosts,
          x := innerRightX, y := contributionY, width := innerRightWidth,
          height := fixedRatio,
          color := colors.fixed, borderColor := some "#FFFFFF",
          textColor := some (getContrastColor colors.fixed),
          percentage := fixedRatio, isCalculated := false }
      let lastBlock : TreemapBlock :=
        if ¬ isLoss then
          let profitRatio := calculated.operatingProfit / sales
          let profitY := contributionY + fixedRatio
          { id := "profit", type := BlockType.profit, label := labels.profit,
            value := calculated.operatingProfit,
            x := innerRightX, y := profitY, width := innerRightWidth,
            height := profitRatio,
            color := colors.profit, borderColor := some "#FFFFFF",
            textColor := some (getContrastColor colors.profit),
            percentage := profitRatio, isCalculated := true }
        else
          let lossAmount := |calculated.operatingProfit|
          let lossRatio := lossAmount / sales
          if lossDisplayMode = LossDisplayMode.negativeBar then
            { id := "loss", type := BlockType.loss, label := labels.loss,
              value := calculated.operatingProfit,
              x := innerRightX, y := 1, width := innerRightWidth,
              height := lossRatio,
              color := colors.loss, borderColor := some "#FFFFFF",
              textColor := some (getContrastColor colors.loss),
              percentage := lossRatio, isCalculated := true,
              meta := some { isLoss := some true, extendsBelow := some true } }
          else
            let separateGap : ℚ := 0.01
            { id := "loss", type := BlockType.loss, label := labels.loss,
              value := calculated.operatingProfit,
              x := innerRightX, y := 1 + separateGap, width := innerRightWidth,
              height := max lossRatio 0.15,
              color := colors.loss, borderColor := some "#FFFFFF",
              textColor := some "#FFFFFF",
              percentage := lossRatio, isCalculated := true,
              meta := some { isLoss := some true, displayMode := some "separate",
                             extendsBelow := some true } }
      [contributionBlock, fixedBlock, lastBlock]
    else
      let lossAmount := |calculated.operatingProfit|
      [{ id := "loss", type := BlockType.loss, label := labels.loss,
         value := calculated.operatingProfit,
         x := rightX, y := variableHeight, width := rightWidth,
         height := lossAmount / sales,
         color := colors.loss, borderColor := some "#FFFFFF",
         textColor := some (getContrastColor colors.loss),
         percentage := lossAmount / sales, isCalculated := true,
         meta := some { isLoss := some true, extendsBelow := some true } }]
  { blocks := [salesBlock, variableBlock] ++ tail, heightExtension := heightExtension }

/-- `TreemapLayoutEngine.generateAnnotations`, using the freshly resolved
formatter (`this.formatter`). -/
def generateAnnotations (formatter : ValueFormatter) (input : CVPInput)
    (calculated : CVPCalculatedValues) (options : DisplayOptions) :
    List Annotation :=
  match calculated.breakEvenPoint with
  | some breakEvenPoint =>
    if options.showBEPLine.getD false then
      let bepRatio := breakEvenPoint / input.sales
      let bepOptions := optOr options.bepOptions DEFAULT_DISPLAY_OPTIONS.bepOptions
      let labelContent := bepOptions.bind (fun b => b.labelContent)
      let labelText :=
        if labelContent = some BEPLabelContent.value ∨ labelContent = some BEPLabelContent.both then
          "BEP: " ++ formatter.format breakEvenPoint
        else ""
      [{ type := AnnotationType.line
         orientation := some LineOrientation.vertical
         position := { x := bepRatio, y := 0 }
         text :=
           if (bepOptions.bind (fun b => b.showLabel)).getD false then some labelText
           else none
         style := some
           { strokeWidth :=
               some ((bepOptions.bind (fun b => b.lineStyle.bind (fun l => l.strokeWidth))).getD 2)
             strokeDasharray :=
               some ((bepOptions.bind (fun b => b.lineStyle.bind (fun l => l.dashArray))).getD "5,5")
             strokeColor :=
               some ((bepOptions.bind (fun b => b.lineStyle.bind (fun l => l.color))).getD "#E74C3C")
             fontSize := some 11
             fontColor := some "#333333" }
         meta := some { labelPosition := some ((bepOptions.bind (fun b => b.labelPosition)).getD BEPLabelPosition.top) } }]
    else []
  | none => []

/-- `TreemapLayoutEngine.generateLayout`: merge options, refresh the instance
state from them, generate blocks and annotations, and assemble the output.
Returns the output together with the updated instance state. -/
def generateLayout (state : EngineState) (input : CVPInput)
    (calculated : CVPCalculatedValues) (options : DisplayOptions) :
    TreemapLayoutOutput × EngineState :=
  let displayOptions := mergeOptions options
  let colors := resolveColors (some displayOptions)
  let labels := getLabels (displayOptions.locale.getD "ja-JP")
  let formatter := ValueFormatter.fromDisplayOptions displayOptions
  let result := generateBlocks colors labels input calculated displayOptions
  let annotations := generateAnnotations formatter input calculated displayOptions
  ({ blocks := result.blocks
     annotations := annotations
     referenceWidth := 800
     referenceHeight := 400
     meta :=
       { hasLoss := decide (calculated.operatingProfit < 0)
         hasBEP := calculated.breakEvenPoint.isSome
         salesValue := input.sales
         heightExtension := result.heightExtension } },
   { colors := colors, labels := labels, formatter := formatter })

end TreemapLayoutEngine

/-! ## Claim-support definitions -/

/-- The first component of `generateLayout`: the layout output of one call
(the second component is the updated instance state). -/
def layoutOutput (state : EngineState) (input : CVPInput)
    (calculated : CVPCalculatedValues) (options : DisplayOptions) :
    TreemapLayoutOutput :=
  (TreemapLayoutEngine.generateLayout state input calculated options).1

/-- A fresh engine, as built by `new TreemapLayoutEngine()`. -/
def defaultEngine : EngineState := TreemapLayoutEngine.new none

/-- The first block of the given type in a layout. -/
def findBlock (out : TreemapLayoutOutput) (t : BlockType) : Option TreemapBlock :=
  out.blocks.find? (fun b => b.type == t)

/-- The geometry fields of a block: x, y, width, height, value, percentage
(everything except identity, label, color and metadata). -/
def blockGeom (b : TreemapBlock) : ℚ × ℚ × ℚ × ℚ × ℚ × ℚ :=
  (b.x, b.y, b.width, b.height, b.value, b.percentage)

/-- Two option records that agree on everything except `colorScheme` and
`customColors`. -/
def DisplayOptions.eqExceptColors (o1 o2 : DisplayOptions) : Prop :=
  o1.unitMode = o2.unitMode ∧ o1.currencySymbol = o2.currencySymbol ∧
  o1.locale = o2.locale ∧ o1.decimalPlaces = o2.decimalPlaces ∧
  o1.lossDisplayMode = o2.lossDisplayMode ∧ o1.showBEPLine = o2.showBEPLine ∧
  o1.bepOptions = o2.bepOptions

/-! ## Shape lemmas for `generateBlocks` -/

/-- The sales block, as emitted for positive sales. -/
def mkSalesBlock (colors : RequiredColorPalette) (labels : Labels)
    (input : CVPInput) : TreemapBlock :=
  { id := "sales", type := BlockType.sales, label := labels.sales,
    value := input.sales, x := 0, y := 0, width := 0.35, height := 1,
    color := colors.sales, borderColor := some "#FFFFFF",
    textColor := some (getContrastColor colors.sales),
    percentage := 1, isCalculated := false }

/-- The variable-costs block, as emitted for positive sales. -/
def mkVariableBlock (colors : RequiredColorPalette) (labels : Labels)
    (input : CVPInput) : TreemapBlock :=
  { id := "variable", type := BlockType.variable, label := labels.variable,
    value := input.variableCosts, x := 0.35, y := 0, width := 1 - 0.35,
    height := input.variableCosts / input.sales,
    color := colors.variable, borderColor := some "#FFFFFF",
    textColor := some (getContrastColor colors.variable),
    percentage := input.variableCosts / input.sales, isCalculated := false }

/-- The contribution-margin block (positive contribution ratio). -/
def mkContributionBlock (colors : RequiredColorPalette) (labels : Labels)
    (input : CVPInput) (calculated : CVPCalculatedValues) : TreemapBlock :=
  { id := "contribution", type := BlockType.contribution,
    label := labels.contribution, value := calculated.contributionMargin,
    x := 0.35, y := input.variableCosts / input.sales, width := (1 - 0.35) * 0.5,
    height := calculated.contributionMargin / input.sales,
    color := colors.contribution, borderColor := some "#FFFFFF",
    textColor := some (getContrastColor colors.contribution),
    percentage := calculated.contributionMargin / input.sales, isCalculated := true }

/-- The fixed-costs block (positive contribution ratio). -/
def mkFixedBlock (colors : RequiredColorPalette) (labels : Labels)
    (input : CVPInput) : TreemapBlock :=
  { id := "fixed", type := BlockType.fixed, label := labels.fixed,
    value := input.fixedCosts, x := 0.35 + (1 - 0.35) * 0.5,
    y := input.variableCosts / input.sales, width := (1 - 0.35) * 0.5,
    height := input.fixedCosts / input.sales,
    color := colors.fixed, borderColor := some "#FFFFFF",
    textColor := some (getContrastColor colors.fixed),
    percentage := input.fixedCosts / input.sales, isCalculated := false }

/-- The profit block (no loss). -/
def mkProfitBlock (colors : RequiredColorPalette) (labels : Labels)
    (input : CVPInput) (calculated : CVPCalculatedValues) : TreemapBlock :=
  { id := "profit", type := BlockType.profit, label := labels.profit,
    value := calculated.operatingProfit, x := 0.35 + (1 - 0.35) * 0.5,
    y := input.variableCosts / input.sales + input.fixedCosts / input.sales,
    width := (1 - 0.35) * 0.5,
    height := calculated.operatingProfit / input.sales,
    color := colors.profit, borderColor := some "#FFFFFF",
    textColor := some (getContrastColor colors.profit),
    percentage := calculated.operatingProfit / input.sales, isCalculated := true }

/-- The loss block of `negative-bar` mode (loss with positive contribution
ratio). -/
def mkLossBlockNegativeBar (colors : RequiredColorPalette) (labels : Labels)
    (input : CVPInput) (calculated : CVPCalculatedValues) : TreemapBlock :=
  { id := "loss", type := BlockType.loss, label := labels.loss,
    value := calculated.operatingProfit, x := 0.35 + (1 - 0.35) * 0.5,
    y := 1, width := (1 - 0.35) * 0.5,
    height := |calculated.operatingProfit| / input.sales,
    color := colors.loss, borderColor := some "#FFFFFF",
    textColor := some (getContrastColor colors.loss),
    percentage := |calculated.operatingProfit| / input.sales, isCalculated := true,
    meta := some { isLoss := some true, extendsBelow := some true } }

/-- The detached loss block of the non-`negative-bar` modes (loss with
positive contribution ratio). -/
def mkLossBlockSeparate (colors : RequiredColorPalette) (labels : Labels)
    (input : CVPInput) (calculated : CVPCalculatedValues) : TreemapBlock :=
  { id := "loss", type := BlockType.loss, label := labels.loss,
    value := calculated.operatingProfit, x := 0.35 + (1 - 0.35) * 0.5,
    y := 1 + 0.01, width := (1 - 0.35) * 0.5,
    height := max (|calculated.operatingProfit| / input.sales) 0.15,
    color := colors.loss, borderColor := some "#FFFFFF",
    textColor := some "#FFFFFF",
    percentage := |calculated.operatingProfit| / input.sales, isCalculated := true,
    meta := some { isLoss := some true, displayMode := some "separate",
                   extendsBelow := some true } }

/-- The full-width loss block of the degenerate case (non-positive
contribution ratio). -/
def mkLossBlockDegenerate (colors : RequiredColorPalette) (labels : Labels)
    (input : CVPInput) (calculated : CVPCalculatedValues) : TreemapBlock :=
  { id := "loss", type := BlockType.loss, label := labels.loss,
    value := calculated.operatingProfit, x := 0.35,
    y := input.variableCosts / input.sales, width := 1 - 0.35,
    height := |calculated.operatingProfit| / input.sales,
    color := colors.loss, borderColor := some "#FFFFFF",
    textColor := some (getContrastColor colors.loss),
    percentage := |calculated.operatingProfit| / input.sales, isCalculated := true,
    meta := some { isLoss := some true, extendsBelow := some true } }


/-! ## Shared example data (spec §8 scenarios) -/

/-- `{sales:100, variableCosts:60, fixedCosts:50}`: a loss with positive
contribution margin (`operatingProfit = -10`). -/
def lossInput : CVPInput := { sales := 100, variableCosts := 60, fixedCosts := 50 }

/-- `{sales:100, variableCosts:40, fixedCosts:30}`: a profitable scenario. -/
def profitInput : CVPInput := { sales := 100, variableCosts := 40, fixedCosts := 30 }

/-- `{sales:100, variableCosts:120, fixedCosts:0}`: variable costs exceed
sales, so the contribution margin is negative. -/
def degenerateInput : CVPInput :=
  { sales := 100, variableCosts := 120, fixedCosts := 0 }

/-- `{sales:0, variableCosts:0, fixedCosts:1000000}`: the zero-sales edge
case. -/
def zeroSalesInput : CVPInput :=
  { sales := 0, variableCosts := 0, fixedCosts := 1000000 }

/-- Options selecting `lossDisplayMode: 'separate'`. -/
def separateOptions : DisplayOptions :=
  { lossDisplayMode := some LossDisplayMode.separate }

/-- Options selecting `lossDisplayMode: 'negative-bar'`. -/
def negativeBarOptions : DisplayOptions :=
  { lossDisplayMode := some LossDisplayMode.negativeBar }

/-- Options selecting `lossDisplayMode: 'separate'` plus the pastel color
scheme. -/
def pastelSeparateOptions : DisplayOptions :=
  { lossDisplayMode := some LossDisplayMode.separate,
    colorScheme := some (ColorSchemeChoice.name "pastel") }


/-! ## Basic facts about `CVPCalculator.calculate` -/

theorem calculate_contributionMargin (input : CVPInput) :
    (CVPCalculator.calculate input).contributionMargin =
      input.sales - input.variableCosts := rfl

theorem calculate_operatingProfit (input : CVPInput) :
    (CVPCalculator.calculate input).operatingProfit =
      input.sales - input.variableCosts - input.fixedCosts := rfl

theorem calculate_contributionMarginRatio (input : CVPInput) :
    (CVPCalculator.calculate input).contributionMarginRatio =
      CVPCalculator.safeRatio (input.sales - input.variableCosts) input.sales := rfl

theorem calculate_breakEvenPoint (input : CVPInput) :
    (CVPCalculator.calculate input).breakEvenPoint =
      CVPCalculator.calculateBreakEvenPoint input.fixedCosts
        (CVPCalculator.calculate input).contributionMarginRatio := rfl

theorem calculate_safetyMargin (input : CVPInput) :
    (CVPCalculator.calculate input).safetyMargin =
      CVPCalculator.calculateSafetyMargin input.sales
        (CVPCalculator.calculate input).breakEvenPoint := rfl

/-! ## Claim theorems -/

/-- Claim C5: for every input, `calculate` returns
`contributionMargin = sales - variableCosts` and
`operatingProfit = contributionMargin - fixedCosts` exactly; consequently
`contributionMargin = operatingProfit + fixedCosts`. -/
theorem claim_C5_margin_identities (input : CVPInput) :
    (CVPCalculator.calculate input).contributionMargin =
        input.sales - input.variableCosts ∧
    (CVPCalculator.calculate input).operatingProfit =
        (CVPCalculator.calculate input).contributionMargin - input.fixedCosts ∧
    (CVPCalculator.calculate input).contributionMargin =
        (CVPCalculator.calculate input).operatingProfit + input.fixedCosts := by
  refine ⟨rfl, rfl, ?_⟩
  rw [calculate_contributionMargin, calculate_operatingProfit]
  ring

/-- Claim C4: `calculate` returns `breakEvenPoint = none` exactly when
`contributionMarginRatio ≤ 1e-10`; with a ratio above the epsilon it returns
`0` for non-positive fixed costs and `fixedCosts / contributionMarginRatio`
otherwise (so the break-even point times the ratio gives back the fixed
costs); and `safetyMargin` is `sales - breakEvenPoint` when the break-even
point exists, `none` otherwise. -/
theorem claim_C4_break_even_and_safety_margin (input : CVPInput) :
    ((CVPCalculator.calculate input).breakEvenPoint = none ↔
      (CVPCalculator.calculate input).contributionMarginRatio ≤ PRECISION_EPSILON) ∧
    (PRECISION_EPSILON < (CVPCalculator.calculate input).contributionMarginRatio →
      input.fixedCosts ≤ 0 →
      (CVPCalculator.calculate input).breakEvenPoint = some 0) ∧
    (PRECISION_EPSILON < (CVPCalculator.calculate input).contributionMarginRatio →
      0 < input.fixedCosts →
      (CVPCalculator.calculate input).breakEvenPoint =
        some (input.fixedCosts / (CVPCalculator.calculate input).contributionMarginRatio) ∧
      (input.fixedCosts / (CVPCalculator.calculate input).contributionMarginRatio) *
        (CVPCalculator.calculate input).contributionMarginRatio = input.fixedCosts) ∧
    (∀ b, (CVPCalculator.calculate input).breakEvenPoint = some b →
      (CVPCalculator.calculate input).safetyMargin = some (input.sales - b)) ∧
    ((CVPCalculator.calculate input).breakEvenPoint = none →
      (CVPCalculator.calculate input).safetyMargin = none) := by
  have hbep := calculate_breakEvenPoint input
  have hsm := calculate_safetyMargin input
  refine ⟨?_, ?_, ?_, ?_, ?_⟩
  · rw [hbep]
    unfold CVPCalculator.calculateBreakEvenPoint
    split_ifs with h1 h2 <;> simp [h1]
  · intro hεlt hfc
    rw [hbep]
    unfold CVPCalculator.calculateBreakEvenPoint
    rw [if_neg (not_le.2 hεlt), if_pos hfc]
  · intro hεlt hfc
    have hcmr : (0 : ℚ) < (CVPCalculator.calculate input).contributionMarginRatio := by
      calc (0 : ℚ) < PRECISION_EPSILON := by norm_num [PRECISION_EPSILON]
        _ < _ := hεlt
    refine ⟨?_, div_mul_cancel₀ _ (ne_of_gt hcmr)⟩
    rw [hbep]
    unfold CVPCalculator.calculateBreakEvenPoint
    rw [if_neg (not_le.2 hεlt), if_neg (not_le.2 hfc)]
  · intro b hb
    rw [hsm, hb]
    rfl
  · intro hb
    rw [hsm, hb]
    rfl

/-- Closed instantiations of the claim-C4 theorem: a profitable input
(break-even at 50, safety margin 50), a zero-fixed-costs input (break-even
0), and a negative-contribution-margin input (no break-even point, no safety
margin). -/
theorem claim_C4_break_even_and_safety_margin_witness :
    (CVPCalculator.calculate { sales := 100, variableCosts := 40, fixedCosts := 30 }).breakEvenPoint = some 50 ∧
    (CVPCalculator.calculate { sales := 100, variableCosts := 40, fixedCosts := 30 }).safetyMargin = some 50 ∧
    (CVPCalculator.calculate { sales := 100, variableCosts := 40, fixedCosts := 0 }).breakEvenPoint = some 0 ∧
    (CVPCalculator.calculate { sales := 100, variableCosts := 120, fixedCosts := 10 }).breakEvenPoint = none ∧
    (CVPCalculator.calculate { sales := 100, variableCosts := 120, fixedCosts := 10 }).safetyMargin = none := by
  have h1 := claim_C4_break_even_and_safety_margin
    { sales := 100, variableCosts := 40, fixedCosts := 30 }
  have h2 := claim_C4_break_even_and_safety_margin
    { sales := 100, variableCosts := 40, fixedCosts := 0 }
  have h3 := claim_C4_break_even_and_safety_margin
    { sales := 100, variableCosts := 120, fixedCosts := 10 }
  have hcmr1 : (CVPCalculator.calculate
      { sales := 100, variableCosts := 40, fixedCosts := 30 }).contributionMarginRatio = 3/5 := by
    norm_num [calculate_contributionMarginRatio, CVPCalculator.safeRatio, PRECISION_EPSILON]
  have hcmr2 : (CVPCalculator.calculate
      { sales := 100, variableCosts := 40, fixedCosts := 0 }).contributionMarginRatio = 3/5 := by
    norm_num [calculate_contributionMarginRatio, CVPCalculator.safeRatio, PRECISION_EPSILON]
  have hcmr3 : (CVPCalculator.calculate
      { sales := 100, variableCosts := 120, fixedCosts := 10 }).contributionMarginRatio = -(1/5) := by
    norm_num [calculate_contributionMarginRatio, CVPCalculator.safeRatio, PRECISION_EPSILON]
  have hbep1 : (CVPCalculator.calculate
      { sales := 100, variableCosts := 40, fixedCosts := 30 }).breakEvenPoint = some 50 := by
    have := (h1.2.2.1 (by rw [hcmr1]; norm_num [PRECISION_EPSILON]) (by norm_num)).1
    rw [this, hcmr1]
    norm_num
  have hbep3 : (CVPCalculator.calculate
      { sales := 100, variableCosts := 120, fixedCosts := 10 }).breakEvenPoint = none := by
    rw [h3.1, hcmr3]
    norm_num [PRECISION_EPSILON]
  refine ⟨hbep1, ?_, ?_, hbep3, h3.2.2.2.2 hbep3⟩
  · have := h1.2.2.2.1 50 hbep1
    rw [this]
    norm_num
  · exact h2.2.1 (by rw [hcmr2]; norm_num [PRECISION_EPSILON]) (by norm_num)

/-! ## Reduction of `generateLayout` to `generateBlocks` -/

theorem layoutOutput_blocks (state : EngineState) (input : CVPInput)
    (calculated : CVPCalculatedValues) (options : DisplayOptions) :
    (layoutOutput state input calculated options).blocks =
      (TreemapLayoutEngine.generateBlocks
        (resolveColors (some (mergeOptions options)))
        (getLabels ((mergeOptions options).locale.getD "ja-JP"))
        input calculated (mergeOptions options)).blocks := rfl

theorem layoutOutput_heightExtension (state : EngineState) (input : CVPInput)
    (calculated : CVPCalculatedValues) (options : DisplayOptions) :
    (layoutOutput state input calculated options).meta.heightExtension =
      (TreemapLayoutEngine.generateBlocks
        (resolveColors (some (mergeOptions options)))
        (getLabels ((mergeOptions options).locale.getD "ja-JP"))
        input calculated (mergeOptions options)).heightExtension := rfl

/-- Claim C2: with positive sales, a loss, and a positive contribution
margin, `separate` mode places the loss block at `y = 1.0 + 0.01`
(gap 0.01) with height `max (|operatingProfit| / sales) 0.15`, and
`heightExtension = 1.0 + 0.01 +` that height, hence
`heightExtension ≥ lossBlock.y + lossBlock.height`. -/
theorem claim_C2_separate_mode_loss_geometry (state : EngineState)
    (input : CVPInput) (options : DisplayOptions)
    (h1 : 0 < input.sales)
    (h2 : (CVPCalculator.calculate input).operatingProfit < 0)
    (h3 : 0 < (CVPCalculator.calculate input).contributionMargin)
    (hmode : options.lossDisplayMode = some LossDisplayMode.separate) :
    (∃ lb ∈ (layoutOutput state input (CVPCalculator.calculate input) options).blocks,
      lb.type = BlockType.loss) ∧
    (∀ lb ∈ (layoutOutput state input (CVPCalculator.calculate input) options).blocks,
      lb.type = BlockType.loss →
      lb.y = 1.0 + 0.01 ∧
      lb.height = max (|(CVPCalculator.calculate input).operatingProfit| / input.sales) 0.15 ∧
      (layoutOutput state input (CVPCalculator.calculate input) options).meta.heightExtension
        = 1.0 + 0.01 + lb.height ∧
      (layoutOutput state input (CVPCalculator.calculate input) options).meta.heightExtension
        ≥ lb.y + lb.height) := by
  have hsn : ¬ (input.sales ≤ 0) := not_le.2 h1
  have hcr : (0 : ℚ) < (CVPCalculator.calculate input).contributionMargin / input.sales :=
    div_pos h3 h1
  have hmode' : (mergeOptions options).lossDisplayMode = some LossDisplayMode.separate := by
    simp [mergeOptions, optOr, hmode]
  have hcr' : (CVPCalculator.calculate input).contributionMargin / input.sales > 0 := hcr
  rw [layoutOutput_blocks, layoutOutput_heightExtension]
  simp only [TreemapLayoutEngine.generateBlocks, if_neg hsn, hmode', Option.getD_some]
  simp only [h2, hcr', gt_iff_lt, eq_self_iff_true, and_true, true_and, and_false,
    false_and, if_true, if_false, not_true, ite_true, ite_false, if_pos hcr,
    reduceCtorEq, not_false_iff]
  constructor
  · simp
  · intro lb hlb hloss
    simp only [List.cons_append, List.nil_append, List.mem_cons,
      List.not_mem_nil, or_false] at hlb
    rcases hlb with rfl | rfl | rfl | rfl | rfl
    · exact absurd hloss (by simp)
    · exact absurd hloss (by simp)
    · exact absurd hloss (by simp)
    · exact absurd hloss (by simp)
    · refine ⟨by norm_num, by norm_num, by norm_num, by norm_num⟩

theorem generateBlocks_blocks_profit (colors : RequiredColorPalette)
    (labels : Labels) (input : CVPInput) (calculated : CVPCalculatedValues)
    (options : DisplayOptions) (h1 : 0 < input.sales)
    (hcm : 0 < calculated.contributionMargin)
    (hop : 0 ≤ calculated.operatingProfit) :
    (TreemapLayoutEngine.generateBlocks colors labels input calculated options).blocks =
      [mkSalesBlock colors labels input, mkVariableBlock colors labels input,
       mkContributionBlock colors labels input calculated,
       mkFixedBlock colors labels input,
       mkProfitBlock colors labels input calculated] := by
  have hsn : ¬ input.sales ≤ 0 := not_le.2 h1
  have hcr : calculated.contributionMargin / input.sales > 0 := div_pos hcm h1
  have hnl : ¬ calculated.operatingProfit < 0 := not_lt.2 hop
  simp [TreemapLayoutEngine.generateBlocks, if_neg hsn, hcr, hnl,
    mkSalesBlock, mkVariableBlock, mkContributionBlock, mkFixedBlock, mkProfitBlock]

theorem generateBlocks_blocks_loss_negativeBar (colors : RequiredColorPalette)
    (labels : Labels) (input : CVPInput) (calculated : CVPCalculatedValues)
    (options : DisplayOptions) (h1 : 0 < input.sales)
    (hcm : 0 < calculated.contributionMargin)
    (hop : calculated.operatingProfit < 0)
    (hmode : options.lossDisplayMode.getD LossDisplayMode.negativeBar =
      LossDisplayMode.negativeBar) :
    (TreemapLayoutEngine.generateBlocks colors labels input calculated options).blocks =
      [mkSalesBlock colors labels input, mkVariableBlock colors labels input,
       mkContributionBlock colors labels input calculated,
       mkFixedBlock colors labels input,
       mkLossBlockNegativeBar colors labels input calculated] := by
  have hsn : ¬ input.sales ≤ 0 := not_le.2 h1
  have hcr : calculated.contributionMargin / input.sales > 0 := div_pos hcm h1
  simp [TreemapLayoutEngine.generateBlocks, if_neg hsn, hcr, hop, hmode,
    mkSalesBlock, mkVariableBlock, mkContributionBlock, mkFixedBlock,
    mkLossBlockNegativeBar]

theorem generateBlocks_blocks_loss_detached (colors : RequiredColorPalette)
    (labels : Labels) (input : CVPInput) (calculated : CVPCalculatedValues)
    (options : DisplayOptions) (h1 : 0 < input.sales)
    (hcm : 0 < calculated.contributionMargin)
    (hop : calculated.operatingProfit < 0)
    (hmode : options.lossDisplayMode.getD LossDisplayMode.negativeBar ≠
      LossDisplayMode.negativeBar) :
    (TreemapLayoutEngine.generateBlocks colors labels input calculated options).blocks =
      [mkSalesBlock colors labels input, mkVariableBlock colors labels input,
       mkContributionBlock colors labels input calculated,
       mkFixedBlock colors labels input,
       mkLossBlockSeparate colors labels input calculated] := by
  have hsn : ¬ input.sales ≤ 0 := not_le.2 h1
  have hcr : calculated.contributionMargin / input.sales > 0 := div_pos hcm h1
  simp [TreemapLayoutEngine.generateBlocks, if_neg hsn, hcr, hop, hmode,
    mkSalesBlock, mkVariableBlock, mkContributionBlock, mkFixedBlock,
    mkLossBlockSeparate]

theorem generateBlocks_blocks_degenerate (colors : RequiredColorPalette)
    (labels : Labels) (input : CVPInput) (calculated : CVPCalculatedValues)
    (options : DisplayOptions) (h1 : 0 < input.sales)
    (hcm : calculated.contributionMargin ≤ 0) :
    (TreemapLayoutEngine.generateBlocks colors labels input calculated options).blocks =
      [mkSalesBlock colors labels input, mkVariableBlock colors labels input,
       mkLossBlockDegenerate colors labels input calculated] := by
  have hsn : ¬ input.sales ≤ 0 := not_le.2 h1
  have hcr : ¬ (calculated.contributionMargin / input.sales > 0) :=
    not_lt.2 (div_nonpos_iff.2 (Or.inr ⟨hcm, le_of_lt h1⟩))
  simp [TreemapLayoutEngine.generateBlocks, if_neg hsn, if_neg hcr,
    mkSalesBlock, mkVariableBlock, mkLossBlockDegenerate]

theorem generateBlocks_heightExtension_noLoss (colors : RequiredColorPalette)
    (labels : Labels) (input : CVPInput) (calculated : CVPCalculatedValues)
    (options : DisplayOptions) (h1 : 0 < input.sales)
    (hop : 0 ≤ calculated.operatingProfit) :
    (TreemapLayoutEngine.generateBlocks colors labels input calculated
        options).heightExtension = 1 := by
  have hsn : ¬ input.sales ≤ 0 := not_le.2 h1
  have hnl : ¬ calculated.operatingProfit < 0 := not_lt.2 hop
  simp [TreemapLayoutEngine.generateBlocks, if_neg hsn, hnl]

theorem generateBlocks_heightExtension_negativeBar (colors : RequiredColorPalette)
    (labels : Labels) (input : CVPInput) (calculated : CVPCalculatedValues)
    (options : DisplayOptions) (h1 : 0 < input.sales)
    (hop : calculated.operatingProfit < 0)
    (hmode : options.lossDisplayMode.getD LossDisplayMode.negativeBar =
      LossDisplayMode.negativeBar) :
    (TreemapLayoutEngine.generateBlocks colors labels input calculated
        options).heightExtension =
      (input.variableCosts + input.fixedCosts) / input.sales := by
  have hsn : ¬ input.sales ≤ 0 := not_le.2 h1
  simp [TreemapLayoutEngine.generateBlocks, if_neg hsn, hop, hmode]

theorem generateBlocks_heightExtension_separate (colors : RequiredColorPalette)
    (labels : Labels) (input : CVPInput) (calculated : CVPCalculatedValues)
    (options : DisplayOptions) (h1 : 0 < input.sales)
    (hop : calculated.operatingProfit < 0)
    (hmode : options.lossDisplayMode.getD LossDisplayMode.negativeBar =
      LossDisplayMode.separate) :
    (TreemapLayoutEngine.generateBlocks colors labels input calculated
        options).heightExtension =
      1.0 + 0.01 + max (|calculated.operatingProfit| / input.sales) 0.15 := by
  have hsn : ¬ input.sales ≤ 0 := not_le.2 h1
  simp [TreemapLayoutEngine.generateBlocks, if_neg hsn, hop, hmode]

theorem generateBlocks_heightExtension_downward (colors : RequiredColorPalette)
    (labels : Labels) (input : CVPInput) (calculated : CVPCalculatedValues)
    (options : DisplayOptions) (h1 : 0 < input.sales)
    (hmode : options.lossDisplayMode.getD LossDisplayMode.negativeBar =
      LossDisplayMode.downward) :
    (TreemapLayoutEngine.generateBlocks colors labels input calculated
        options).heightExtension = 1 := by
  have hsn : ¬ input.sales ≤ 0 := not_le.2 h1
  simp [TreemapLayoutEngine.generateBlocks, if_neg hsn, hmode]

/-- Closed instantiation of the claim-C2 theorem at
`{sales:100, variableCosts:60, fixedCosts:50}` in `separate` mode. -/
theorem claim_C2_separate_mode_loss_geometry_witness :
    0 < lossInput.sales ∧
    (CVPCalculator.calculate lossInput).operatingProfit < 0 ∧
    0 < (CVPCalculator.calculate lossInput).contributionMargin ∧
    separateOptions.lossDisplayMode = some LossDisplayMode.separate ∧
    ((∃ lb ∈ (layoutOutput defaultEngine lossInput
        (CVPCalculator.calculate lossInput) separateOptions).blocks,
        lb.type = BlockType.loss) ∧
      (∀ lb ∈ (layoutOutput defaultEngine lossInput
          (CVPCalculator.calculate lossInput) separateOptions).blocks,
        lb.type = BlockType.loss →
        lb.y = 1.0 + 0.01 ∧
        lb.height = max (|(CVPCalculator.calculate lossInput).operatingProfit| / lossInput.sales) 0.15 ∧
        (layoutOutput defaultEngine lossInput
            (CVPCalculator.calculate lossInput) separateOptions).meta.heightExtension
          = 1.0 + 0.01 + lb.height ∧
        (layoutOutput defaultEngine lossInput
            (CVPCalculator.calculate lossInput) separateOptions).meta.heightExtension
          ≥ lb.y + lb.height)) :=
  ⟨by norm_num [lossInput],
   by norm_num [calculate_operatingProfit, lossInput],
   by norm_num [calculate_contributionMargin, lossInput],
   rfl,
   claim_C2_separate_mode_loss_geometry defaultEngine lossInput separateOptions
     (by norm_num [lossInput])
     (by norm_num [calculate_operatingProfit, lossInput])
     (by norm_num [calculate_contributionMargin, lossInput]) rfl⟩

/-- Claim C3: with positive sales and a loss, `negative-bar` mode computes
`heightExtension = (variableCosts + fixedCosts) / sales`, which equals
`1 + |operatingProfit| / sales` and is at least 1; with a positive
contribution margin the loss block starts exactly at `y = 1` with height
`|operatingProfit| / sales`. -/
theorem claim_C3_negative_bar_mode_geometry (state : EngineState)
    (input : CVPInput) (options : DisplayOptions)
    (h1 : 0 < input.sales)
    (h2 : (CVPCalculator.calculate input).operatingProfit < 0)
    (hmode : options.lossDisplayMode = some LossDisplayMode.negativeBar) :
    (layoutOutput state input (CVPCalculator.calculate input) options).meta.heightExtension
        = (input.variableCosts + input.fixedCosts) / input.sales ∧
    (layoutOutput state input (CVPCalculator.calculate input) options).meta.heightExtension
        = 1 + |(CVPCalculator.calculate input).operatingProfit| / input.sales ∧
    1 ≤ (layoutOutput state input (CVPCalculator.calculate input) options).meta.heightExtension ∧
    (0 < (CVPCalculator.calculate input).contributionMargin →
      (∃ lb ∈ (layoutOutput state input (CVPCalculator.calculate input) options).blocks,
        lb.type = BlockType.loss) ∧
      ∀ lb ∈ (layoutOutput state input (CVPCalculator.calculate input) options).blocks,
        lb.type = BlockType.loss →
        lb.y = 1 ∧
        lb.height = |(CVPCalculator.calculate input).operatingProfit| / input.sales) := by
  have hs0 : input.sales ≠ 0 := ne_of_gt h1
  have hmode' : (mergeOptions options).lossDisplayMode.getD LossDisplayMode.negativeBar
      = LossDisplayMode.negativeBar := by
    simp [mergeOptions, optOr, hmode]
  have h2' : input.sales - input.variableCosts - input.fixedCosts < 0 := by
    rw [← calculate_operatingProfit input]
    exact h2
  have habs : |(CVPCalculator.calculate input).operatingProfit| =
      input.variableCosts + input.fixedCosts - input.sales := by
    rw [calculate_operatingProfit, abs_of_neg h2']
    ring
  have hE : (layoutOutput state input (CVPCalculator.calculate input) options).meta.heightExtension
      = (input.variableCosts + input.fixedCosts) / input.sales := by
    rw [layoutOutput_heightExtension]
    exact generateBlocks_heightExtension_negativeBar _ _ _ _ _ h1 h2 hmode'
  have heq : (input.variableCosts + input.fixedCosts) / input.sales
      = 1 + |(CVPCalculator.calculate input).operatingProfit| / input.sales := by
    rw [habs]
    field_simp
  refine ⟨hE, hE.trans heq, ?_, ?_⟩
  · rw [hE, heq]
    have : 0 ≤ |(CVPCalculator.calculate input).operatingProfit| / input.sales :=
      div_nonneg (abs_nonneg _) h1.le
    linarith
  · intro hcm
    have hblocks :
        (layoutOutput state input (CVPCalculator.calculate input) options).blocks =
          [mkSalesBlock (resolveColors (some (mergeOptions options)))
             (getLabels ((mergeOptions options).locale.getD "ja-JP")) input,
           mkVariableBlock (resolveColors (some (mergeOptions options)))
             (getLabels ((mergeOptions options).locale.getD "ja-JP")) input,
           mkContributionBlock (resolveColors (some (mergeOptions options)))
             (getLabels ((mergeOptions options).locale.getD "ja-JP")) input
             (CVPCalculator.calculate input),
           mkFixedBlock (resolveColors (some (mergeOptions options)))
             (getLabels ((mergeOptions options).locale.getD "ja-JP")) input,
           mkLossBlockNegativeBar (resolveColors (some (mergeOptions options)))
             (getLabels ((mergeOptions options).locale.getD "ja-JP")) input
             (CVPCalculator.calculate input)] := by
      rw [layoutOutput_blocks]
      exact generateBlocks_blocks_loss_negativeBar _ _ _ _ _ h1 hcm h2 hmode'
    rw [hblocks]
    constructor
    · exact ⟨mkLossBlockNegativeBar (resolveColors (some (mergeOptions options)))
        (getLabels ((mergeOptions options).locale.getD "ja-JP")) input
        (CVPCalculator.calculate input), by simp, rfl⟩
    · intro lb hlb hloss
      simp only [List.mem_cons, List.not_mem_nil, or_false] at hlb
      rcases hlb with rfl | rfl | rfl | rfl | rfl
      · exact absurd hloss (by simp [mkSalesBlock])
      · exact absurd hloss (by simp [mkVariableBlock])
      · exact absurd hloss (by simp [mkContributionBlock])
      · exact absurd hloss (by simp [mkFixedBlock])
      · exact ⟨rfl, rfl⟩

/-- Closed instantiation of the claim-C3 theorem at
`{sales:100, variableCosts:60, fixedCosts:50}` in `negative-bar` mode. -/
theorem claim_C3_negative_bar_mode_geometry_witness :
    0 < lossInput.sales ∧
    (CVPCalculator.calculate lossInput).operatingProfit < 0 ∧
    negativeBarOptions.lossDisplayMode = some LossDisplayMode.negativeBar ∧
    ((layoutOutput defaultEngine lossInput
        (CVPCalculator.calculate lossInput) negativeBarOptions).meta.heightExtension
      = (lossInput.variableCosts + lossInput.fixedCosts) / lossInput.sales ∧
     (layoutOutput defaultEngine lossInput
        (CVPCalculator.calculate lossInput) negativeBarOptions).meta.heightExtension
      = 1 + |(CVPCalculator.calculate lossInput).operatingProfit| / lossInput.sales ∧
     1 ≤ (layoutOutput defaultEngine lossInput
        (CVPCalculator.calculate lossInput) negativeBarOptions).meta.heightExtension ∧
     (0 < (CVPCalculator.calculate lossInput).contributionMargin →
      (∃ lb ∈ (layoutOutput defaultEngine lossInput
          (CVPCalculator.calculate lossInput) negativeBarOptions).blocks,
        lb.type = BlockType.loss) ∧
      ∀ lb ∈ (layoutOutput defaultEngine lossInput
          (CVPCalculator.calculate lossInput) negativeBarOptions).blocks,
        lb.type = BlockType.loss →
        lb.y = 1 ∧
        lb.height = |(CVPCalculator.calculate lossInput).operatingProfit| / lossInput.sales)) :=
  ⟨by norm_num [lossInput],
   by norm_num [calculate_operatingProfit, lossInput],
   rfl,
   claim_C3_negative_bar_mode_geometry defaultEngine lossInput negativeBarOptions
     (by norm_num [lossInput])
     (by norm_num [calculate_operatingProfit, lossInput]) rfl⟩

/-- Claim C7: with positive sales and non-positive contribution margin, the
block list is exactly sales, variable-costs, and one loss block; the loss
block spans the full width of column 2 (`x = 0.35`, `width = 0.65`), sits
directly below the variable-costs block (`y = variableCosts / sales`) with
height `|operatingProfit| / sales`, in every loss display mode. -/
theorem claim_C7_degenerate_contribution_margin (state : EngineState)
    (input : CVPInput) (options : DisplayOptions)
    (h1 : 0 < input.sales)
    (hcm : (CVPCalculator.calculate input).contributionMargin ≤ 0) :
    ((layoutOutput state input (CVPCalculator.calculate input) options).blocks.map
        (fun b => b.type) = [BlockType.sales, BlockType.variable, BlockType.loss]) ∧
    ∀ lb ∈ (layoutOutput state input (CVPCalculator.calculate input) options).blocks,
      lb.type = BlockType.loss →
      lb.x = 0.35 ∧ lb.width = 0.65 ∧
      lb.y = input.variableCosts / input.sales ∧
      lb.height = |(CVPCalculator.calculate input).operatingProfit| / input.sales := by
  have hblocks :
      (layoutOutput state input (CVPCalculator.calculate input) options).blocks =
        [mkSalesBlock (resolveColors (some (mergeOptions options)))
           (getLabels ((mergeOptions options).locale.getD "ja-JP")) input,
         mkVariableBlock (resolveColors (some (mergeOptions options)))
           (getLabels ((mergeOptions options).locale.getD "ja-JP")) input,
         mkLossBlockDegenerate (resolveColors (some (mergeOptions options)))
           (getLabels ((mergeOptions options).locale.getD "ja-JP")) input
           (CVPCalculator.calculate input)] := by
    rw [layoutOutput_blocks]
    exact generateBlocks_blocks_degenerate _ _ _ _ _ h1 hcm
  rw [hblocks]
  constructor
  · simp [mkSalesBlock, mkVariableBlock, mkLossBlockDegenerate]
  · intro lb hlb hloss
    simp only [List.mem_cons, List.not_mem_nil, or_false] at hlb
    rcases hlb with rfl | rfl | rfl
    · exact absurd hloss (by simp [mkSalesBlock])
    · exact absurd hloss (by simp [mkVariableBlock])
    · exact ⟨rfl, by norm_num [mkLossBlockDegenerate], rfl, rfl⟩

/-- Closed instantiation of the claim-C7 theorem at
`{sales:100, variableCosts:120, fixedCosts:0}` in `separate` mode. -/
theorem claim_C7_degenerate_contribution_margin_witness :
    0 < degenerateInput.sales ∧
    (CVPCalculator.calculate degenerateInput).contributionMargin ≤ 0 ∧
    (((layoutOutput defaultEngine degenerateInput
        (CVPCalculator.calculate degenerateInput) separateOptions).blocks.map
          (fun b => b.type) = [BlockType.sales, BlockType.variable, BlockType.loss]) ∧
      ∀ lb ∈ (layoutOutput defaultEngine degenerateInput
          (CVPCalculator.calculate degenerateInput) separateOptions).blocks,
        lb.type = BlockType.loss →
        lb.x = 0.35 ∧ lb.width = 0.65 ∧
        lb.y = degenerateInput.variableCosts / degenerateInput.sales ∧
        lb.height = |(CVPCalculator.calculate degenerateInput).operatingProfit| /
          degenerateInput.sales) :=
  ⟨by norm_num [degenerateInput],
   by norm_num [calculate_contributionMargin, degenerateInput],
   claim_C7_degenerate_contribution_margin defaultEngine degenerateInput separateOptions
     (by norm_num [degenerateInput])
     (by norm_num [calculate_contributionMargin, degenerateInput])⟩

/-- Claim C6: in the profit case the column-2 geometry reconstructs the
sales reference height exactly: variable + contribution heights sum to 1,
fixed + profit heights sum to the contribution height, all three cost/profit
heights sum to 1, the profit block sits directly below the fixed block, and
`heightExtension = 1`. -/
theorem claim_C6_profit_case_round_trip (state : EngineState)
    (input : CVPInput) (options : DisplayOptions)
    (h1 : 0 < input.sales)
    (hop : 0 ≤ (CVPCalculator.calculate input).operatingProfit)
    (hcm : 0 < (CVPCalculator.calculate input).contributionMargin) :
    ∃ vb cb fb pb,
      findBlock (layoutOutput state input (CVPCalculator.calculate input) options)
        BlockType.variable = some vb ∧
      findBlock (layoutOutput state input (CVPCalculator.calculate input) options)
        BlockType.contribution = some cb ∧
      findBlock (layoutOutput state input (CVPCalculator.calculate input) options)
        BlockType.fixed = some fb ∧
      findBlock (layoutOutput state input (CVPCalculator.calculate input) options)
        BlockType.profit = some pb ∧
      vb.height + cb.height = 1 ∧
      fb.height + pb.height = cb.height ∧
      vb.height + fb.height + pb.height = 1 ∧
      pb.y = fb.y + fb.height ∧
      (layoutOutput state input (CVPCalculator.calculate input) options).meta.heightExtension = 1 := by
  have hs0 : input.sales ≠ 0 := ne_of_gt h1
  have hblocks :
      (layoutOutput state input (CVPCalculator.calculate input) options).blocks =
        [mkSalesBlock (resolveColors (some (mergeOptions options)))
           (getLabels ((mergeOptions options).locale.getD "ja-JP")) input,
         mkVariableBlock (resolveColors (some (mergeOptions options)))
           (getLabels ((mergeOptions options).locale.getD "ja-JP")) input,
         mkContributionBlock (resolveColors (some (mergeOptions options)))
           (getLabels ((mergeOptions options).locale.getD "ja-JP")) input
           (CVPCalculator.calculate input),
         mkFixedBlock (resolveColors (some (mergeOptions options)))
           (getLabels ((mergeOptions options).locale.getD "ja-JP")) input,
         mkProfitBlock (resolveColors (some (mergeOptions options)))
           (getLabels ((mergeOptions options).locale.getD "ja-JP")) input
           (CVPCalculator.calculate input)] := by
    rw [layoutOutput_blocks]
    exact generateBlocks_blocks_profit _ _ _ _ _ h1 hcm hop
  refine ⟨mkVariableBlock (resolveColors (some (mergeOptions options)))
      (getLabels ((mergeOptions options).locale.getD "ja-JP")) input,
    mkContributionBlock (resolveColors (some (mergeOptions options)))
      (getLabels ((mergeOptions options).locale.getD "ja-JP")) input
      (CVPCalculator.calculate input),
    mkFixedBlock (resolveColors (some (mergeOptions options)))
      (getLabels ((mergeOptions options).locale.getD "ja-JP")) input,
    mkProfitBlock (resolveColors (some (mergeOptions options)))
      (getLabels ((mergeOptions options).locale.getD "ja-JP")) input
      (CVPCalculator.calculate input),
    ?_, ?_, ?_, ?_, ?_, ?_, ?_, ?_, ?_⟩
  · rw [findBlock, hblocks,
      List.find?_cons_of_neg _ (by simp [mkSalesBlock, mkVariableBlock, mkContributionBlock, mkFixedBlock, mkProfitBlock]),
      List.find?_cons_of_pos _ (by rfl)]
  · rw [findBlock, hblocks,
      List.find?_cons_of_neg _ (by simp [mkSalesBlock, mkVariableBlock, mkContributionBlock, mkFixedBlock, mkProfitBlock]),
      List.find?_cons_of_neg _ (by simp [mkSalesBlock, mkVariableBlock, mkContributionBlock, mkFixedBlock, mkProfitBlock]),
      List.find?_cons_of_pos _ (by rfl)]
  · rw [findBlock, hblocks,
      List.find?_cons_of_neg _ (by simp [mkSalesBlock, mkVariableBlock, mkContributionBlock, mkFixedBlock, mkProfitBlock]),
      List.find?_cons_of_neg _ (by simp [mkSalesBlock, mkVariableBlock, mkContributionBlock, mkFixedBlock, mkProfitBlock]),
      List.find?_cons_of_neg _ (by simp [mkSalesBlock, mkVariableBlock, mkContributionBlock, mkFixedBlock, mkProfitBlock]),
      List.find?_cons_of_pos _ (by rfl)]
  · rw [findBlock, hblocks,
      List.find?_cons_of_neg _ (by simp [mkSalesBlock, mkVariableBlock, mkContributionBlock, mkFixedBlock, mkProfitBlock]),
      List.find?_cons_of_neg _ (by simp [mkSalesBlock, mkVariableBlock, mkContributionBlock, mkFixedBlock, mkProfitBlock]),
      List.find?_cons_of_neg _ (by simp [mkSalesBlock, mkVariableBlock, mkContributionBlock, mkFixedBlock, mkProfitBlock]),
      List.find?_cons_of_neg _ (by simp [mkSalesBlock, mkVariableBlock, mkContributionBlock, mkFixedBlock, mkProfitBlock]),
      List.find?_cons_of_pos _ (by rfl)]
  · show input.variableCosts / input.sales +
      (CVPCalculator.calculate input).contributionMargin / input.sales = 1
    rw [calculate_contributionMargin]
    field_simp
  · show input.fixedCosts / input.sales +
      (CVPCalculator.calculate input).operatingProfit / input.sales =
      (CVPCalculator.calculate input).contributionMargin / input.sales
    rw [calculate_contributionMargin, calculate_operatingProfit]
    field_simp
  · show input.variableCosts / input.sales + input.fixedCosts / input.sales +
      (CVPCalculator.calculate input).operatingProfit / input.sales = 1
    rw [calculate_operatingProfit]
    field_simp
  · rfl
  · rw [layoutOutput_heightExtension]
    exact generateBlocks_heightExtension_noLoss _ _ _ _ _ h1 hop

/-- Closed instantiation of the claim-C6 theorem at
`{sales:100, variableCosts:40, fixedCosts:30}`. -/
theorem claim_C6_profit_case_round_trip_witness :
    0 < profitInput.sales ∧
    0 ≤ (CVPCalculator.calculate profitInput).operatingProfit ∧
    0 < (CVPCalculator.calculate profitInput).contributionMargin ∧
    (∃ vb cb fb pb,
      findBlock (layoutOutput defaultEngine profitInput
        (CVPCalculator.calculate profitInput) ({} : DisplayOptions))
        BlockType.variable = some vb ∧
      findBlock (layoutOutput defaultEngine profitInput
        (CVPCalculator.calculate profitInput) ({} : DisplayOptions))
        BlockType.contribution = some cb ∧
      findBlock (layoutOutput defaultEngine profitInput
        (CVPCalculator.calculate profitInput) ({} : DisplayOptions))
        BlockType.fixed = some fb ∧
      findBlock (layoutOutput defaultEngine profitInput
        (CVPCalculator.calculate profitInput) ({} : DisplayOptions))
        BlockType.profit = some pb ∧
      vb.height + cb.height = 1 ∧
      fb.height + pb.height = cb.height ∧
      vb.height + fb.height + pb.height = 1 ∧
      pb.y = fb.y + fb.height ∧
      (layoutOutput defaultEngine profitInput
        (CVPCalculator.calculate profitInput) ({} : DisplayOptions)).meta.heightExtension = 1) :=
  ⟨by norm_num [profitInput],
   by norm_num [calculate_operatingProfit, profitInput],
   by norm_num [calculate_contributionMargin, profitInput],
   claim_C6_profit_case_round_trip defaultEngine profitInput ({} : DisplayOptions)
     (by norm_num [profitInput])
     (by norm_num [calculate_operatingProfit, profitInput])
     (by norm_num [calculate_contributionMargin, profitInput])⟩

/-- Claim C1 fails as stated: at `{sales:100, variableCosts:120,
fixedCosts:0}` (a loss with `contributionMargin = -20 ≤ 0`) in
`negative-bar` mode, the emitted loss block has
`y + height = 1.2 + 0.2 = 1.4` while `heightExtension = 1.2`. -/
theorem claim_C1_counterexample :
    ∃ lb ∈ (layoutOutput defaultEngine degenerateInput
        (CVPCalculator.calculate degenerateInput) negativeBarOptions).blocks,
      lb.type = BlockType.loss ∧
      (layoutOutput defaultEngine degenerateInput
        (CVPCalculator.calculate degenerateInput) negativeBarOptions).meta.heightExtension
        < lb.y + lb.height := by
  have h1 : (0 : ℚ) < degenerateInput.sales := by norm_num [degenerateInput]
  have hcm : (CVPCalculator.calculate degenerateInput).contributionMargin ≤ 0 := by
    norm_num [calculate_contributionMargin, degenerateInput]
  have hop : (CVPCalculator.calculate degenerateInput).operatingProfit < 0 := by
    norm_num [calculate_operatingProfit, degenerateInput]
  have habs : |(CVPCalculator.calculate degenerateInput).operatingProfit| = 20 := by
    rw [calculate_operatingProfit, abs_of_neg]
    · norm_num [degenerateInput]
    · norm_num [degenerateInput]
  have hmode' : (mergeOptions negativeBarOptions).lossDisplayMode.getD
      LossDisplayMode.negativeBar = LossDisplayMode.negativeBar := by
    simp [mergeOptions, optOr, negativeBarOptions]
  refine ⟨mkLossBlockDegenerate (resolveColors (some (mergeOptions negativeBarOptions)))
      (getLabels ((mergeOptions negativeBarOptions).locale.getD "ja-JP"))
      degenerateInput (CVPCalculator.calculate degenerateInput), ?_, rfl, ?_⟩
  · rw [layoutOutput_blocks,
      generateBlocks_blocks_degenerate _ _ _ _ _ h1 hcm]
    simp
  · rw [layoutOutput_heightExtension,
      generateBlocks_heightExtension_negativeBar _ _ _ _ _ h1 hop hmode']
    show (degenerateInput.variableCosts + degenerateInput.fixedCosts) / degenerateInput.sales
      < degenerateInput.variableCosts / degenerateInput.sales +
        |(CVPCalculator.calculate degenerateInput).operatingProfit| / degenerateInput.sales
    rw [habs]
    norm_num [degenerateInput]

/-- Claim C1 (amended): the invariant
`heightExtension ≥ lossBlock.y + lossBlock.height` holds in both
`negative-bar` and `separate` mode for every loss input whose variable costs
do not exceed sales (the counterexample forces this extra hypothesis: in the
degenerate branch the loss block starts at `y = variableCosts / sales`, which
exceeds what `heightExtension` covers as soon as `variableCosts > sales`). -/
theorem claim_C1_amended_heightExtension_covers_loss (state : EngineState)
    (input : CVPInput) (options : DisplayOptions)
    (h1 : 0 < input.sales)
    (h2 : (CVPCalculator.calculate input).operatingProfit < 0)
    (hvc : input.variableCosts ≤ input.sales)
    (hmode : options.lossDisplayMode = some LossDisplayMode.negativeBar ∨
      options.lossDisplayMode = some LossDisplayMode.separate) :
    (∃ lb ∈ (layoutOutput state input (CVPCalculator.calculate input) options).blocks,
      lb.type = BlockType.loss) ∧
    ∀ lb ∈ (layoutOutput state input (CVPCalculator.calculate input) options).blocks,
      lb.type = BlockType.loss →
      lb.y + lb.height ≤
        (layoutOutput state input (CVPCalculator.calculate input) options).meta.heightExtension := by
  have hs0 : input.sales ≠ 0 := ne_of_gt h1
  have h2' : input.sales - input.variableCosts - input.fixedCosts < 0 := by
    rw [← calculate_operatingProfit input]
    exact h2
  have habs : |(CVPCalculator.calculate input).operatingProfit| =
      input.variableCosts + input.fixedCosts - input.sales := by
    rw [calculate_operatingProfit, abs_of_neg h2']
    ring
  have habs0 : 0 ≤ |(CVPCalculator.calculate input).operatingProfit| / input.sales :=
    div_nonneg (abs_nonneg _) h1.le
  have hvc1 : input.variableCosts / input.sales ≤ 1 :=
    (div_le_one h1).2 hvc
  rcases hmode with hm | hm
  · -- negative-bar mode
    have hmode' : (mergeOptions options).lossDisplayMode.getD LossDisplayMode.negativeBar
        = LossDisplayMode.negativeBar := by
      simp [mergeOptions, optOr, hm]
    have hEq : (layoutOutput state input (CVPCalculator.calculate input) options).meta.heightExtension
        = (input.variableCosts + input.fixedCosts) / input.sales := by
      rw [layoutOutput_heightExtension]
      exact generateBlocks_heightExtension_negativeBar _ _ _ _ _ h1 h2 hmode'
    by_cases hcm : 0 < (CVPCalculator.calculate input).contributionMargin
    · have hblocks := (layoutOutput_blocks state input
          (CVPCalculator.calculate input) options).trans
        (generateBlocks_blocks_loss_negativeBar _ _ _ _ _ h1 hcm h2 hmode')
      rw [hblocks, hEq]
      constructor
      · exact ⟨mkLossBlockNegativeBar (resolveColors (some (mergeOptions options)))
          (getLabels ((mergeOptions options).locale.getD "ja-JP")) input
          (CVPCalculator.calculate input), by simp, rfl⟩
      · intro lb hlb hloss
        simp only [List.mem_cons, List.not_mem_nil, or_false] at hlb
        rcases hlb with rfl | rfl | rfl | rfl | rfl
        · exact absurd hloss (by simp [mkSalesBlock])
        · exact absurd hloss (by simp [mkVariableBlock])
        · exact absurd hloss (by simp [mkContributionBlock])
        · exact absurd hloss (by simp [mkFixedBlock])
        · show (1 : ℚ) + |(CVPCalculator.calculate input).operatingProfit| / input.sales ≤ _
          have heq : (input.variableCosts + input.fixedCosts) / input.sales
              = 1 + |(CVPCalculator.calculate input).operatingProfit| / input.sales := by
            rw [habs]
            field_simp
          rw [heq]
    · have hblocks := (layoutOutput_blocks state input
          (CVPCalculator.calculate input) options).trans
        (generateBlocks_blocks_degenerate _ _ _ _ _ h1 (not_lt.1 hcm))
      rw [hblocks, hEq]
      constructor
      · exact ⟨mkLossBlockDegenerate (resolveColors (some (mergeOptions options)))
          (getLabels ((mergeOptions options).locale.getD "ja-JP")) input
          (CVPCalculator.calculate input), by simp, rfl⟩
      · intro lb hlb hloss
        simp only [List.mem_cons, List.not_mem_nil, or_false] at hlb
        rcases hlb with rfl | rfl | rfl
        · exact absurd hloss (by simp [mkSalesBlock])
        · exact absurd hloss (by simp [mkVariableBlock])
        · show input.variableCosts / input.sales +
            |(CVPCalculator.calculate input).operatingProfit| / input.sales ≤ _
          rw [habs, div_add_div_same]
          exact (div_le_div_iff_of_pos_right h1).2 (by linarith)
  · -- separate mode
    have hmode' : (mergeOptions options).lossDisplayMode.getD LossDisplayMode.negativeBar
        = LossDisplayMode.separate := by
      simp [mergeOptions, optOr, hm]
    have hmodeNe : (mergeOptions options).lossDisplayMode.getD LossDisplayMode.negativeBar
        ≠ LossDisplayMode.negativeBar := by
      rw [hmode']
      simp
    have hEq : (layoutOutput state input (CVPCalculator.calculate input) options).meta.heightExtension
        = 1.0 + 0.01 + max (|(CVPCalculator.calculate input).operatingProfit| / input.sales) 0.15 := by
      rw [layoutOutput_heightExtension]
      exact generateBlocks_heightExtension_separate _ _ _ _ _ h1 h2 hmode'
    have hmax : |(CVPCalculator.calculate input).operatingProfit| / input.sales ≤
        max (|(CVPCalculator.calculate input).operatingProfit| / input.sales) (0.15 : ℚ) :=
      le_max_left _ _
    by_cases hcm : 0 < (CVPCalculator.calculate input).contributionMargin
    · have hblocks := (layoutOutput_blocks state input
          (CVPCalculator.calculate input) options).trans
        (generateBlocks_blocks_loss_detached _ _ _ _ _ h1 hcm h2 hmodeNe)
      rw [hblocks, hEq]
      constructor
      · exact ⟨mkLossBlockSeparate (resolveColors (some (mergeOptions options)))
          (getLabels ((mergeOptions options).locale.getD "ja-JP")) input
          (CVPCalculator.calculate input), by simp, rfl⟩
      · intro lb hlb hloss
        simp only [List.mem_cons, List.not_mem_nil, or_false] at hlb
        rcases hlb with rfl | rfl | rfl | rfl | rfl
        · exact absurd hloss (by simp [mkSalesBlock])
        · exact absurd hloss (by simp [mkVariableBlock])
        · exact absurd hloss (by simp [mkContributionBlock])
        · exact absurd hloss (by simp [mkFixedBlock])
        · show (1 : ℚ) + 0.01 +
            max (|(CVPCalculator.calculate input).operatingProfit| / input.sales) 0.15 ≤ _
          norm_num
    · have hblocks := (layoutOutput_blocks state input
          (CVPCalculator.calculate input) options).trans
        (generateBlocks_blocks_degenerate _ _ _ _ _ h1 (not_lt.1 hcm))
      rw [hblocks, hEq]
      constructor
      · exact ⟨mkLossBlockDegenerate (resolveColors (some (mergeOptions options)))
          (getLabels ((mergeOptions options).locale.getD "ja-JP")) input
          (CVPCalculator.calculate input), by simp, rfl⟩
      · intro lb hlb hloss
        simp only [List.mem_cons, List.not_mem_nil, or_false] at hlb
        rcases hlb with rfl | rfl | rfl
        · exact absurd hloss (by simp [mkSalesBlock])
        · exact absurd hloss (by simp [mkVariableBlock])
        · show input.variableCosts / input.sales +
            |(CVPCalculator.calculate input).operatingProfit| / input.sales ≤ _
          linarith

/-- Closed instantiation of the amended claim-C1 theorem at
`{sales:100, variableCosts:60, fixedCosts:50}` in `negative-bar` mode. -/
theorem claim_C1_amended_heightExtension_covers_loss_witness :
    0 < lossInput.sales ∧
    (CVPCalculator.calculate lossInput).operatingProfit < 0 ∧
    lossInput.variableCosts ≤ lossInput.sales ∧
    ((∃ lb ∈ (layoutOutput defaultEngine lossInput
        (CVPCalculator.calculate lossInput) negativeBarOptions).blocks,
      lb.type = BlockType.loss) ∧
     ∀ lb ∈ (layoutOutput defaultEngine lossInput
        (CVPCalculator.calculate lossInput) negativeBarOptions).blocks,
      lb.type = BlockType.loss →
      lb.y + lb.height ≤
        (layoutOutput defaultEngine lossInput
          (CVPCalculator.calculate lossInput) negativeBarOptions).meta.heightExtension) :=
  ⟨by norm_num [lossInput],
   by norm_num [calculate_operatingProfit, lossInput],
   by norm_num [lossInput],
   claim_C1_amended_heightExtension_covers_loss defaultEngine lossInput negativeBarOptions
     (by norm_num [lossInput])
     (by norm_num [calculate_operatingProfit, lossInput])
     (by norm_num [lossInput])
     (Or.inl rfl)⟩

/-- Claim C8: non-positive sales yield an empty block list with
`heightExtension = 1` (total function, nothing to throw), and near-zero
sales make every sales-denominated ratio of `calculate` exactly 0 (never a
division by zero). -/
theorem claim_C8_zero_sales_guards :
    (∀ (state : EngineState) (input : CVPInput)
        (calculated : CVPCalculatedValues) (options : DisplayOptions),
      input.sales ≤ 0 →
      (layoutOutput state input calculated options).blocks = [] ∧
      (layoutOutput state input calculated options).meta.heightExtension = 1) ∧
    (∀ input : CVPInput, |input.sales| < PRECISION_EPSILON →
      (CVPCalculator.calculate input).contributionMarginRatio = 0 ∧
      (CVPCalculator.calculate input).operatingProfitRatio = 0 ∧
      (CVPCalculator.calculate input).variableCostRatio = 0 ∧
      (CVPCalculator.calculate input).fixedCostRatio = 0) := by
  constructor
  · intro state input calculated options h
    constructor
    · rw [layoutOutput_blocks]
      simp [TreemapLayoutEngine.generateBlocks, if_pos h]
    · rw [layoutOutput_heightExtension]
      simp [TreemapLayoutEngine.generateBlocks, if_pos h]
  · intro input h
    refine ⟨?_, ?_, ?_, ?_⟩ <;>
      simp [CVPCalculator.calculate, CVPCalculator.safeRatio, if_pos h]

/-- Closed instantiation of the claim-C8 theorem at
`{sales:0, variableCosts:0, fixedCosts:1000000}`. -/
theorem claim_C8_zero_sales_guards_witness :
    zeroSalesInput.sales ≤ 0 ∧
    |zeroSalesInput.sales| < PRECISION_EPSILON ∧
    ((layoutOutput defaultEngine zeroSalesInput
        (CVPCalculator.calculate zeroSalesInput) ({} : DisplayOptions)).blocks = [] ∧
     (layoutOutput defaultEngine zeroSalesInput
        (CVPCalculator.calculate zeroSalesInput) ({} : DisplayOptions)).meta.heightExtension = 1) ∧
    ((CVPCalculator.calculate zeroSalesInput).contributionMarginRatio = 0 ∧
     (CVPCalculator.calculate zeroSalesInput).operatingProfitRatio = 0 ∧
     (CVPCalculator.calculate zeroSalesInput).variableCostRatio = 0 ∧
     (CVPCalculator.calculate zeroSalesInput).fixedCostRatio = 0) :=
  ⟨by norm_num [zeroSalesInput],
   by norm_num [zeroSalesInput, PRECISION_EPSILON],
   claim_C8_zero_sales_guards.1 defaultEngine zeroSalesInput
     (CVPCalculator.calculate zeroSalesInput) ({} : DisplayOptions)
     (by norm_num [zeroSalesInput]),
   claim_C8_zero_sales_guards.2 zeroSalesInput
     (by norm_num [zeroSalesInput, PRECISION_EPSILON])⟩

/-- Claim C10: with positive sales and non-negative costs, every block has
non-negative x, y, width and height, and `heightExtension ≥ 1`, in every
loss display mode. -/
theorem claim_C10_nonnegative_geometry (state : EngineState)
    (input : CVPInput) (options : DisplayOptions)
    (h1 : 0 < input.sales) (h2 : 0 ≤ input.variableCosts)
    (h3 : 0 ≤ input.fixedCosts) :
    (∀ b ∈ (layoutOutput state input (CVPCalculator.calculate input) options).blocks,
      0 ≤ b.x ∧ 0 ≤ b.y ∧ 0 ≤ b.width ∧ 0 ≤ b.height) ∧
    1 ≤ (layoutOutput state input (CVPCalculator.calculate input) options).meta.heightExtension := by
  have hvdiv : 0 ≤ input.variableCosts / input.sales := div_nonneg h2 h1.le
  have hfdiv : 0 ≤ input.fixedCosts / input.sales := div_nonneg h3 h1.le
  have habsdiv : 0 ≤ |(CVPCalculator.calculate input).operatingProfit| / input.sales :=
    div_nonneg (abs_nonneg _) h1.le
  constructor
  · by_cases hcm : 0 < (CVPCalculator.calculate input).contributionMargin
    · have hcdiv : 0 ≤ (CVPCalculator.calculate input).contributionMargin / input.sales :=
        (div_pos hcm h1).le
      by_cases hop : (CVPCalculator.calculate input).operatingProfit < 0
      · cases hmode : (mergeOptions options).lossDisplayMode.getD LossDisplayMode.negativeBar
        ·
          rw [(layoutOutput_blocks state input (CVPCalculator.calculate input) options).trans
            (generateBlocks_blocks_loss_negativeBar _ _ _ _ _ h1 hcm hop hmode)]
          intro b hb
          simp only [List.mem_cons, List.not_mem_nil, or_false] at hb
          rcases hb with rfl | rfl | rfl | rfl | rfl
          · exact ⟨le_refl 0, le_refl 0, (by norm_num : (0:ℚ) ≤ 0.35), (by norm_num : (0:ℚ) ≤ 1)⟩
          · exact ⟨(by norm_num : (0:ℚ) ≤ 0.35), le_refl 0, (by norm_num : (0:ℚ) ≤ 1 - 0.35), hvdiv⟩
          · exact ⟨(by norm_num : (0:ℚ) ≤ 0.35), hvdiv, (by norm_num : (0:ℚ) ≤ (1 - 0.35) * 0.5), hcdiv⟩
          · exact ⟨(by norm_num : (0:ℚ) ≤ 0.35 + (1 - 0.35) * 0.5), hvdiv,
              (by norm_num : (0:ℚ) ≤ (1 - 0.35) * 0.5), hfdiv⟩
          · exact ⟨(by norm_num : (0:ℚ) ≤ 0.35 + (1 - 0.35) * 0.5), (by norm_num : (0:ℚ) ≤ 1),
              (by norm_num : (0:ℚ) ≤ (1 - 0.35) * 0.5), habsdiv⟩
        ·
          rw [(layoutOutput_blocks state input (CVPCalculator.calculate input) options).trans
            (generateBlocks_blocks_loss_detached _ _ _ _ _ h1 hcm hop (by rw [hmode]; simp))]
          intro b hb
          simp only [List.mem_cons, List.not_mem_nil, or_false] at hb
          rcases hb with rfl | rfl | rfl | rfl | rfl
          · exact ⟨le_refl 0, le_refl 0, (by norm_num : (0:ℚ) ≤ 0.35), (by norm_num : (0:ℚ) ≤ 1)⟩
          · exact ⟨(by norm_num : (0:ℚ) ≤ 0.35), le_refl 0, (by norm_num : (0:ℚ) ≤ 1 - 0.35), hvdiv⟩
          · exact ⟨(by norm_num : (0:ℚ) ≤ 0.35), hvdiv, (by norm_num : (0:ℚ) ≤ (1 - 0.35) * 0.5), hcdiv⟩
          · exact ⟨(by norm_num : (0:ℚ) ≤ 0.35 + (1 - 0.35) * 0.5), hvdiv,
              (by norm_num : (0:ℚ) ≤ (1 - 0.35) * 0.5), hfdiv⟩
          · exact ⟨(by norm_num : (0:ℚ) ≤ 0.35 + (1 - 0.35) * 0.5), (by norm_num : (0:ℚ) ≤ 1 + 0.01),
              (by norm_num : (0:ℚ) ≤ (1 - 0.35) * 0.5),
              le_trans (by norm_num : (0:ℚ) ≤ 0.15) (le_max_right _ _)⟩
        ·
          rw [(layoutOutput_blocks state input (CVPCalculator.calculate input) options).trans
            (generateBlocks_blocks_loss_detached _ _ _ _ _ h1 hcm hop (by rw [hmode]; simp))]
          intro b hb
          simp only [List.mem_cons, List.not_mem_nil, or_false] at hb
          rcases hb with rfl | rfl | rfl | rfl | rfl
          · exact ⟨le_refl 0, le_refl 0, (by norm_num : (0:ℚ) ≤ 0.35), (by norm_num : (0:ℚ) ≤ 1)⟩
          · exact ⟨(by norm_num : (0:ℚ) ≤ 0.35), le_refl 0, (by norm_num : (0:ℚ) ≤ 1 - 0.35), hvdiv⟩
          · exact ⟨(by norm_num : (0:ℚ) ≤ 0.35), hvdiv, (by norm_num : (0:ℚ) ≤ (1 - 0.35) * 0.5), hcdiv⟩
          · exact ⟨(by norm_num : (0:ℚ) ≤ 0.35 + (1 - 0.35) * 0.5), hvdiv,
              (by norm_num : (0:ℚ) ≤ (1 - 0.35) * 0.5), hfdiv⟩
          · exact ⟨(by norm_num : (0:ℚ) ≤ 0.35 + (1 - 0.35) * 0.5), (by norm_num : (0:ℚ) ≤ 1 + 0.01),
              (by norm_num : (0:ℚ) ≤ (1 - 0.35) * 0.5),
              le_trans (by norm_num : (0:ℚ) ≤ 0.15) (le_max_right _ _)⟩
      · rw [(layoutOutput_blocks state input (CVPCalculator.calculate input) options).trans
          (generateBlocks_blocks_profit _ _ _ _ _ h1 hcm (not_lt.1 hop))]
        have hpdiv : 0 ≤ (CVPCalculator.calculate input).operatingProfit / input.sales :=
          div_nonneg (not_lt.1 hop) h1.le
        intro b hb
        simp only [List.mem_cons, List.not_mem_nil, or_false] at hb
        rcases hb with rfl | rfl | rfl | rfl | rfl
        · exact ⟨le_refl 0, le_refl 0, (by norm_num : (0:ℚ) ≤ 0.35), (by norm_num : (0:ℚ) ≤ 1)⟩
        · exact ⟨(by norm_num : (0:ℚ) ≤ 0.35), le_refl 0, (by norm_num : (0:ℚ) ≤ 1 - 0.35), hvdiv⟩
        · exact ⟨(by norm_num : (0:ℚ) ≤ 0.35), hvdiv, (by norm_num : (0:ℚ) ≤ (1 - 0.35) * 0.5), hcdiv⟩
        · exact ⟨(by norm_num : (0:ℚ) ≤ 0.35 + (1 - 0.35) * 0.5), hvdiv,
            (by norm_num : (0:ℚ) ≤ (1 - 0.35) * 0.5), hfdiv⟩
        · exact ⟨(by norm_num : (0:ℚ) ≤ 0.35 + (1 - 0.35) * 0.5), add_nonneg hvdiv hfdiv,
            (by norm_num : (0:ℚ) ≤ (1 - 0.35) * 0.5), hpdiv⟩
    · rw [(layoutOutput_blocks state input (CVPCalculator.calculate input) options).trans
        (generateBlocks_blocks_degenerate _ _ _ _ _ h1 (not_lt.1 hcm))]
      intro b hb
      simp only [List.mem_cons, List.not_mem_nil, or_false] at hb
      rcases hb with rfl | rfl | rfl
      · exact ⟨le_refl 0, le_refl 0, (by norm_num : (0:ℚ) ≤ 0.35), (by norm_num : (0:ℚ) ≤ 1)⟩
      · exact ⟨(by norm_num : (0:ℚ) ≤ 0.35), le_refl 0, (by norm_num : (0:ℚ) ≤ 1 - 0.35), hvdiv⟩
      · exact ⟨(by norm_num : (0:ℚ) ≤ 0.35), hvdiv, (by norm_num : (0:ℚ) ≤ 1 - 0.35), habsdiv⟩
  · by_cases hop : (CVPCalculator.calculate input).operatingProfit < 0
    · have h2' : input.sales - input.variableCosts - input.fixedCosts < 0 := by
        rw [← calculate_operatingProfit input]
        exact hop
      cases hmode : (mergeOptions options).lossDisplayMode.getD LossDisplayMode.negativeBar
      ·
        rw [layoutOutput_heightExtension,
          generateBlocks_heightExtension_negativeBar _ _ _ _ _ h1 hop hmode]
        rw [← sub_nonneg]
        have : (input.variableCosts + input.fixedCosts) / input.sales - 1
            = (input.variableCosts + input.fixedCosts - input.sales) / input.sales := by
          field_simp
        rw [this]
        exact div_nonneg (by linarith) h1.le
      ·
        rw [layoutOutput_heightExtension,
          generateBlocks_heightExtension_downward _ _ _ _ _ h1 hmode]
      ·
        rw [layoutOutput_heightExtension,
          generateBlocks_heightExtension_separate _ _ _ _ _ h1 hop hmode]
        have := le_max_right
          (|(CVPCalculator.calculate input).operatingProfit| / input.sales) (0.15 : ℚ)
        linarith
    · rw [layoutOutput_heightExtension,
        generateBlocks_heightExtension_noLoss _ _ _ _ _ h1 (not_lt.1 hop)]

/-- Closed instantiation of the claim-C10 theorem at
`{sales:100, variableCosts:60, fixedCosts:50}` in `separate` mode. -/
theorem claim_C10_nonnegative_geometry_witness :
    0 < lossInput.sales ∧ 0 ≤ lossInput.variableCosts ∧ 0 ≤ lossInput.fixedCosts ∧
    ((∀ b ∈ (layoutOutput defaultEngine lossInput
        (CVPCalculator.calculate lossInput) separateOptions).blocks,
      0 ≤ b.x ∧ 0 ≤ b.y ∧ 0 ≤ b.width ∧ 0 ≤ b.height) ∧
     1 ≤ (layoutOutput defaultEngine lossInput
        (CVPCalculator.calculate lossInput) separateOptions).meta.heightExtension) :=
  ⟨by norm_num [lossInput], by norm_num [lossInput], by norm_num [lossInput],
   claim_C10_nonnegative_geometry defaultEngine lossInput separateOptions
     (by norm_num [lossInput]) (by norm_num [lossInput]) (by norm_num [lossInput])⟩

/-- Colors and labels never flow into block geometry or the height
extension: two `generateBlocks` calls that agree on input, calculated values
and `lossDisplayMode` produce the same geometry. -/
theorem generateBlocks_geometry_independent (c1 c2 : RequiredColorPalette)
    (l1 l2 : Labels) (input : CVPInput) (calculated : CVPCalculatedValues)
    (o1 o2 : DisplayOptions)
    (h : o1.lossDisplayMode = o2.lossDisplayMode) :
    (TreemapLayoutEngine.generateBlocks c1 l1 input calculated o1).blocks.map blockGeom =
      (TreemapLayoutEngine.generateBlocks c2 l2 input calculated o2).blocks.map blockGeom ∧
    (TreemapLayoutEngine.generateBlocks c1 l1 input calculated o1).heightExtension =
      (TreemapLayoutEngine.generateBlocks c2 l2 input calculated o2).heightExtension := by
  by_cases hs : input.sales ≤ 0
  · constructor <;> simp [TreemapLayoutEngine.generateBlocks, if_pos hs]
  · have h1 : 0 < input.sales := not_le.1 hs
    have hmode1 : o1.lossDisplayMode.getD LossDisplayMode.negativeBar =
        o2.lossDisplayMode.getD LossDisplayMode.negativeBar := by rw [h]
    constructor
    · by_cases hcm : 0 < calculated.contributionMargin
      · by_cases hop : calculated.operatingProfit < 0
        · cases hmode : o2.lossDisplayMode.getD LossDisplayMode.negativeBar
          · rw [generateBlocks_blocks_loss_negativeBar c1 l1 input calculated o1 h1 hcm hop
                (hmode1.trans hmode),
              generateBlocks_blocks_loss_negativeBar c2 l2 input calculated o2 h1 hcm hop hmode]
            simp [blockGeom, mkSalesBlock, mkVariableBlock, mkContributionBlock,
              mkFixedBlock, mkLossBlockNegativeBar]
          · rw [generateBlocks_blocks_loss_detached c1 l1 input calculated o1 h1 hcm hop
                (by rw [hmode1, hmode]; simp),
              generateBlocks_blocks_loss_detached c2 l2 input calculated o2 h1 hcm hop
                (by rw [hmode]; simp)]
            simp [blockGeom, mkSalesBlock, mkVariableBlock, mkContributionBlock,
              mkFixedBlock, mkLossBlockSeparate]
          · rw [generateBlocks_blocks_loss_detached c1 l1 input calculated o1 h1 hcm hop
                (by rw [hmode1, hmode]; simp),
              generateBlocks_blocks_loss_detached c2 l2 input calculated o2 h1 hcm hop
                (by rw [hmode]; simp)]
            simp [blockGeom, mkSalesBlock, mkVariableBlock, mkContributionBlock,
              mkFixedBlock, mkLossBlockSeparate]
        · rw [generateBlocks_blocks_profit c1 l1 input calculated o1 h1 hcm (not_lt.1 hop),
            generateBlocks_blocks_profit c2 l2 input calculated o2 h1 hcm (not_lt.1 hop)]
          simp [blockGeom, mkSalesBlock, mkVariableBlock, mkContributionBlock,
            mkFixedBlock, mkProfitBlock]
      · rw [generateBlocks_blocks_degenerate c1 l1 input calculated o1 h1 (not_lt.1 hcm),
          generateBlocks_blocks_degenerate c2 l2 input calculated o2 h1 (not_lt.1 hcm)]
        simp [blockGeom, mkSalesBlock, mkVariableBlock, mkLossBlockDegenerate]
    · by_cases hop : calculated.operatingProfit < 0
      · cases hmode : o2.lossDisplayMode.getD LossDisplayMode.negativeBar
        · rw [generateBlocks_heightExtension_negativeBar c1 l1 input calculated o1 h1 hop
              (hmode1.trans hmode),
            generateBlocks_heightExtension_negativeBar c2 l2 input calculated o2 h1 hop hmode]
        · rw [generateBlocks_heightExtension_downward c1 l1 input calculated o1 h1
              (hmode1.trans hmode),
            generateBlocks_heightExtension_downward c2 l2 input calculated o2 h1 hmode]
        · rw [generateBlocks_heightExtension_separate c1 l1 input calculated o1 h1 hop
              (hmode1.trans hmode),
            generateBlocks_heightExtension_separate c2 l2 input calculated o2 h1 hop hmode]
      · rw [generateBlocks_heightExtension_noLoss c1 l1 input calculated o1 h1 (not_lt.1 hop),
          generateBlocks_heightExtension_noLoss c2 l2 input calculated o2 h1 (not_lt.1 hop)]

/-- Claim C9: `generateLayout` is deterministic — the output is a function
of (input, calculated, options) alone, independent of the instance state
carried over from earlier calls — and two calls differing only in
`colorScheme` and/or `customColors` produce the same geometry: the same
x, y, width, height, value and percentage for every block, and the same
`meta.heightExtension`. -/
theorem claim_C9_determinism_and_color_independence :
    (∀ (s1 s2 : EngineState) (input : CVPInput)
        (calculated : CVPCalculatedValues) (options : DisplayOptions),
      layoutOutput s1 input calculated options =
        layoutOutput s2 input calculated options) ∧
    (∀ (state : EngineState) (input : CVPInput)
        (calculated : CVPCalculatedValues) (o1 o2 : DisplayOptions),
      DisplayOptions.eqExceptColors o1 o2 →
      (layoutOutput state input calculated o1).blocks.map blockGeom =
        (layoutOutput state input calculated o2).blocks.map blockGeom ∧
      (layoutOutput state input calculated o1).meta.heightExtension =
        (layoutOutput state input calculated o2).meta.heightExtension) := by
  constructor
  · intro s1 s2 input calculated options
    rfl
  · intro state input calculated o1 o2 h
    have hmode : (mergeOptions o1).lossDisplayMode = (mergeOptions o2).lossDisplayMode := by
      simp only [mergeOptions]
      rw [h.2.2.2.2.1]
    have hgeom := generateBlocks_geometry_independent
      (resolveColors (some (mergeOptions o1))) (resolveColors (some (mergeOptions o2)))
      (getLabels ((mergeOptions o1).locale.getD "ja-JP"))
      (getLabels ((mergeOptions o2).locale.getD "ja-JP"))
      input calculated (mergeOptions o1) (mergeOptions o2) hmode
    constructor
    · rw [layoutOutput_blocks state input calculated o1,
        layoutOutput_blocks state input calculated o2]
      exact hgeom.1
    · rw [layoutOutput_heightExtension state input calculated o1,
        layoutOutput_heightExtension state input calculated o2]
      exact hgeom.2

/-- Closed instantiation of the claim-C9 theorem: the pastel scheme against
the default scheme, in `separate` mode on a loss input, gives identical
geometry. -/
theorem claim_C9_determinism_and_color_independence_witness :
    DisplayOptions.eqExceptColors pastelSeparateOptions separateOptions ∧
    ((layoutOutput defaultEngine lossInput (CVPCalculator.calculate lossInput)
        pastelSeparateOptions).blocks.map blockGeom =
      (layoutOutput defaultEngine lossInput (CVPCalculator.calculate lossInput)
        separateOptions).blocks.map blockGeom ∧
     (layoutOutput defaultEngine lossInput (CVPCalculator.calculate lossInput)
        pastelSeparateOptions).meta.heightExtension =
      (layoutOutput defaultEngine lossInput (CVPCalculator.calculate lossInput)
        separateOptions).meta.heightExtension) :=
  ⟨⟨rfl, rfl, rfl, rfl, rfl, rfl, rfl⟩,
   claim_C9_determinism_and_color_independence.2 defaultEngine lossInput
     (CVPCalculator.calculate lossInput) pastelSeparateOptions separateOptions
     ⟨rfl, rfl, rfl, rfl, rfl, rfl, rfl⟩⟩
